import Mathlib

/-!
# Alert pipeline of secure-esports-iot

A shallow embedding of the alert and device handlers of `backend/server.js`,
`backend/routes/alerts.js` and `backend/routes/devices.js`, of the registration
of `backend/routes/auth.js`, of `backend/middleware/validation.js` and of the
interceptors of `frontend/src/services/api.service.js`, over the tables
declared in `backend/init-db.js`, with the properties of the acknowledgment
lifecycle, of the event consumer, of the listings and the statistics, of the
gates, of the routing, of the validation and of the statement texts.

Conventions of the embedding:

* a table is the list of its rows, in table order;
* a handler is a function from the store (and the request) to the store it
  leaves, the events it hands to `io.emit`, and the response it sends;
* what the SQLite engine and the JavaScript runtime do, and the repository does
  not define, is an argument of the handler: `num` (the integer a bound TEXT
  value stands for under NUMERIC affinity), `err` (the error the driver passes
  to the callback), `now` (the clock), `toISOString`, `parse` (`JSON.parse`),
  `verify` (`jwt.verify`), `hash` (`bcrypt.hash`);
* `console.log` and `console.error` are not modelled.
-/

namespace SecureIot

/-! ## Data model (`backend/init-db.js`) -/

/-- Row of the `alerts` table: `id INTEGER PRIMARY KEY AUTOINCREMENT`, five
`NOT NULL` text columns, and the nullable columns `description`, `data`,
`acknowledged INTEGER DEFAULT 0`, `acknowledged_by INTEGER`,
`acknowledged_at TEXT`. A nullable column is an `Option`. -/
structure AlertRow where
  id : Int
  device_id : String
  device_type : String
  alert_type : String
  severity : String
  description : Option String
  timestamp : String
  data : Option String
  acknowledged : Option Int
  acknowledged_by : Option Int
  acknowledged_at : Option String
  deriving DecidableEq, Repr

/-- Row of the `devices` table: `id TEXT PRIMARY KEY`, `device_type TEXT NOT NULL`
and the nullable columns, among them `status TEXT DEFAULT 'active'` and
`is_alerting INTEGER DEFAULT 0`. -/
structure DeviceRow where
  id : String
  device_type : String
  public_key : Option String
  status : Option String
  last_seen : Option String
  location : Option String
  ip_address : Option String
  is_alerting : Option Int
  created_at : Option String
  deriving DecidableEq, Repr

/-- The persisted state the alert handlers read and write. -/
structure Store where
  alerts : List AlertRow
  devices : List DeviceRow
  deriving DecidableEq, Repr

/-- JSON values as `JSON.parse` returns them. The alert handlers pass them on
without looking inside; numbers are kept as their integer value, and an object
lists each of its members once. -/
inductive Json where
  | null : Json
  | bool (b : Bool) : Json
  | num (n : Int) : Json
  | str (s : String) : Json
  | arr (items : List Json) : Json
  | obj (fields : List (String × Json)) : Json

/-- What a handler hands to `io.emit`: `new_alert` carries the decoded message,
`alert_updated` carries `{ id: alertId, acknowledged: true }`. -/
inductive Event where
  | new_alert (alert : Json) : Event
  | alert_updated (id : String) (acknowledged : Bool) : Event

/-- Body of a JSON response: `{ error }`, `{ message }`, or the rows of a listing. -/
inductive Body where
  | error (text : String) : Body
  | message (text : String) : Body
  | alerts (rows : List AlertRow) : Body
  deriving DecidableEq, Repr

/-- An HTTP response: `res.status(code).json(body)`; `res.json(body)` is status 200. -/
structure Response where
  status : Nat
  body : Body
  deriving DecidableEq, Repr

/-- What one run of a request handler leaves behind. -/
structure Outcome where
  store : Store
  events : List Event
  response : Response

/-! ## Acknowledging an alert -/

/-- The `WHERE id = ?` of both acknowledge statements: the path parameter is
bound as TEXT, the column is an INTEGER key, so the row matches when the text
stands for the row's id. -/
def idMatches (num : String → Option Int) (alertId : String) (r : AlertRow) : Bool :=
  decide (num alertId = some r.id)

/-- Count of rows an `UPDATE alerts ... WHERE id = ?` reports in `this.changes`:
every row the `WHERE` selects, whether or not its values differ afterwards. -/
def changes (num : String → Option Int) (s : Store) (alertId : String) : Nat :=
  (s.alerts.filter (idMatches num alertId)).length

/-- `UPDATE alerts SET acknowledged = 1 WHERE id = ?` (`server.js`). -/
def setAcknowledged (num : String → Option Int) (s : Store) (alertId : String) : Store :=
  { s with alerts := s.alerts.map fun r =>
      if idMatches num alertId r then { r with acknowledged := some 1 } else r }

/-- `UPDATE alerts SET acknowledged = 1, acknowledged_by = ?, acknowledged_at =
CURRENT_TIMESTAMP WHERE id = ?` (`routes/alerts.js`). -/
def setAcknowledgedBy (num : String → Option Int) (now : String) (s : Store)
    (userId : Int) (alertId : String) : Store :=
  { s with alerts := s.alerts.map fun r =>
      if idMatches num alertId r then
        { r with acknowledged := some 1, acknowledged_by := some userId,
                 acknowledged_at := some now }
      else r }

/-- `app.post('/api/alerts/:id/acknowledge', authenticateToken, ...)` of
`server.js`, once `authenticateToken` has let the request through. -/
def serverAcknowledge (num : String → Option Int) (err : Option String) (s : Store)
    (alertId : String) : Outcome :=
  match err with
  | some _ => ⟨s, [], ⟨500, .error "Internal server error"⟩⟩
  | none =>
    if changes num s alertId = 0 then
      ⟨setAcknowledged num s alertId, [], ⟨404, .error "Alert not found"⟩⟩
    else
      ⟨setAcknowledged num s alertId, [.alert_updated alertId true],
        ⟨200, .message "Alert acknowledged successfully"⟩⟩

/-- `router.post('/:id/acknowledge', ...)` of `routes/alerts.js`, for a request
whose `req.user.id` is `userId`. It emits nothing. -/
def routerAcknowledge (num : String → Option Int) (err : Option String) (now : String)
    (s : Store) (alertId : String) (userId : Int) : Outcome :=
  match err with
  | some _ => ⟨s, [], ⟨500, .error "Internal server error"⟩⟩
  | none =>
    if changes num s alertId = 0 then
      ⟨setAcknowledgedBy num now s userId alertId, [], ⟨404, .error "Alert not found"⟩⟩
    else
      ⟨setAcknowledgedBy num now s userId alertId, [],
        ⟨200, .message "Alert acknowledged successfully"⟩⟩

/-! ## Listing alerts -/

/-- Query string of `GET /api/alerts`: each parameter is absent or a string. -/
structure AlertsQuery where
  severity : Option String
  acknowledged : Option String
  timeRange : Option String
  limit : Option String
  deriving DecidableEq, Repr

/-- JavaScript truthiness of a query parameter: present and not the empty string. -/
def truthy (p : Option String) : Bool :=
  match p with
  | some v => decide (v ≠ "")
  | none => false

/-- Milliseconds the `switch (timeRange)` subtracts from `now`. -/
def windowMs (timeRange : String) : Int :=
  if timeRange = "1h" then 60 * 60 * 1000
  else if timeRange = "6h" then 6 * 60 * 60 * 1000
  else if timeRange = "24h" then 24 * 60 * 60 * 1000
  else if timeRange = "7d" then 7 * 24 * 60 * 60 * 1000
  else 24 * 60 * 60 * 1000

/-- The `conditions` array with its `params` bound: one predicate on a row per
pushed condition, in the order the handler pushes them. `toISOString` is
`Date.prototype.toISOString` on a millisecond instant. -/
def conditions (toISOString : Int → String) (now : Int) (q : AlertsQuery) :
    List (AlertRow → Bool) :=
  (if truthy q.severity && decide (q.severity ≠ some "all") then
      [fun r => decide (some r.severity = q.severity)] else []) ++
  (if truthy q.acknowledged && decide (q.acknowledged ≠ some "all") then
      [fun r => decide (r.acknowledged =
        some (if q.acknowledged = some "true" then 1 else 0))] else []) ++
  (if truthy q.timeRange then
      [fun r => decide (toISOString (now - windowMs (q.timeRange.getD "")) < r.timestamp)]
    else [])

/-- `limit || 50`, as SQLite reads the bound value: the number 50, or the
integer the TEXT `limit` stands for, if any. -/
def queryLimit (num : String → Option Int) (q : AlertsQuery) : Option Int :=
  if truthy q.limit then num (q.limit.getD "") else some 50

/-- `ORDER BY timestamp DESC`: rows by decreasing timestamp (TEXT comparison),
rows of equal timestamp in table order. -/
def orderByTimestampDesc (rows : List AlertRow) : List AlertRow :=
  rows.insertionSort fun a b => ¬ a.timestamp < b.timestamp

/-- `LIMIT n`: a negative `n` is no bound. -/
def sqlLimit (n : Int) (rows : List AlertRow) : List AlertRow :=
  if n < 0 then rows else rows.take n.toNat

/-- `app.get('/api/alerts', authenticateToken, ...)` of `server.js` and
`router.get('/', ...)` of `routes/alerts.js` (the same body), once the request
is let through. A `limit` that stands for no integer makes the statement fail,
which reaches the callback as `err`. -/
def listAlerts (num : String → Option Int) (toISOString : Int → String)
    (err : Option String) (now : Int) (s : Store) (q : AlertsQuery) : Response :=
  match err, queryLimit num q with
  | some _, _ => ⟨500, .error "Internal server error"⟩
  | none, none => ⟨500, .error "Internal server error"⟩
  | none, some n =>
    ⟨200, .alerts (sqlLimit n (orderByTimestampDesc
      (s.alerts.filter fun r => (conditions toISOString now q).all fun c => c r)))⟩

/-! ## The event consumer -/

/-- A message of the `iot_alerts` topic: `message.value` is the text of the
buffer, or `null`. -/
structure KafkaMessage where
  value : Option String
  deriving DecidableEq, Repr

/-- The exceptions `eachMessage` can raise: `null.toString()` and a failed
`JSON.parse`. -/
inductive JsError where
  | TypeError : JsError
  | SyntaxError : JsError
  deriving DecidableEq, Repr

/-- What one run of `eachMessage` leaves behind: `result` is how the async
function settles. -/
structure ConsumerOutcome where
  store : Store
  events : List Event
  result : Except JsError Unit

/-- The `eachMessage` callback of `setupKafkaConsumer` (`server.js`): parse the
value, log it, emit `new_alert`. There is no `try` inside and no statement on
the database. -/
def eachMessage (parse : String → Option Json) (s : Store) (message : KafkaMessage) :
    ConsumerOutcome :=
  match message.value with
  | none => ⟨s, [], .error .TypeError⟩
  | some text =>
    match parse text with
    | none => ⟨s, [], .error .SyntaxError⟩
    | some alert => ⟨s, [.new_alert alert], .ok ()⟩

/-! ## The bound limit, recent alerts and alert statistics -/

/-- A value bound to a `?` of a statement: a JavaScript number that is an
integer, or a string. -/
inductive SqlValue where
  | integer (n : Int) : SqlValue
  | text (t : String) : SqlValue
  deriving DecidableEq, Repr

/-- How `LIMIT ?` reads the bound value: an integer as it is, a text as the
integer it stands for, if any. -/
def SqlValue.asLimit (num : String → Option Int) : SqlValue → Option Int
  | .integer n => some n
  | .text t => num t

/-- `const queryLimit = limit || 50`, the last value pushed on `params` by the
list handler. -/
def boundLimit (q : AlertsQuery) : SqlValue :=
  if truthy q.limit then .text (q.limit.getD "") else .integer 50

/-- `const limit = req.query.limit || 5`, the value bound by the recent-alerts
handler. -/
def recentLimit (limit : Option String) : SqlValue :=
  if truthy limit then .text (limit.getD "") else .integer 5

/-- `app.get('/api/alerts/recent', ...)` of `server.js` and
`router.get('/recent', ...)` of `routes/alerts.js` (the same body):
`SELECT * FROM alerts ORDER BY timestamp DESC LIMIT ?`. -/
def recentAlerts (num : String → Option Int) (err : Option String) (s : Store)
    (limit : Option String) : Response :=
  match err, (recentLimit limit).asLimit num with
  | some _, _ => ⟨500, .error "Internal server error"⟩
  | none, none => ⟨500, .error "Internal server error"⟩
  | none, some n => ⟨200, .alerts (sqlLimit n (orderByTimestampDesc s.alerts))⟩

/-- Milliseconds the `switch (timeRange)` of the stats handler subtracts from
`now` (`routes/alerts.js`, `router.get('/stats', ...)`). -/
def statsWindowMs (timeRange : String) : Int :=
  if timeRange = "1h" then 60 * 60 * 1000
  else if timeRange = "6h" then 6 * 60 * 60 * 1000
  else if timeRange = "24h" then 24 * 60 * 60 * 1000
  else if timeRange = "7d" then 7 * 24 * 60 * 60 * 1000
  else 24 * 60 * 60 * 1000

/-- The instant `timeAgo` of the stats handler, with
`const timeRange = req.query.timeRange || '24h'`. -/
def statsTimeAgo (now : Int) (timeRange : Option String) : Int :=
  now - statsWindowMs (if truthy timeRange then timeRange.getD "" else "24h")

/-- The instant `timeAgo` of the list handler: there is one only inside
`if (timeRange)`. -/
def listTimeAgo (now : Int) (timeRange : Option String) : Option Int :=
  if truthy timeRange then some (now - windowMs (timeRange.getD "")) else none

/-- `SELECT key, COUNT(*) as count FROM ... GROUP BY key` on the keys of the
selected rows: one pair per distinct key. SQL leaves the order of the groups
open; here it is the order of the last occurrences. -/
def groupCount (keys : List String) : List (String × Nat) :=
  keys.dedup.map fun k => (k, keys.count k)

/-- Body of the stats response. -/
structure AlertStats where
  totalAlerts : Nat
  bySeverity : List (String × Nat)
  byDeviceType : List (String × Nat)
  deriving DecidableEq, Repr

/-- The rows both statements of the stats handler select: `WHERE timestamp > ?`
with `timeAgo.toISOString()` bound. -/
def statsRows (toISOString : Int → String) (now : Int) (s : Store)
    (timeRange : Option String) : List AlertRow :=
  s.alerts.filter fun r => decide (toISOString (statsTimeAgo now timeRange) < r.timestamp)

/-- `router.get('/stats', ...)` of `routes/alerts.js`: two grouped counts over
the same window, `err1` and `err2` being the errors of the two statements. The
result is the 500 response or the body of the 200 response. -/
def alertStats (toISOString : Int → String) (err1 err2 : Option String) (now : Int)
    (s : Store) (timeRange : Option String) : Except Response AlertStats :=
  match err1 with
  | some _ => .error ⟨500, .error "Internal server error"⟩
  | none =>
    match err2 with
    | some _ => .error ⟨500, .error "Internal server error"⟩
    | none =>
      .ok
        { totalAlerts :=
            (groupCount ((statsRows toISOString now s timeRange).map AlertRow.severity)).foldl
              (fun sum item => sum + item.2) 0
          bySeverity :=
            groupCount ((statsRows toISOString now s timeRange).map AlertRow.severity)
          byDeviceType :=
            groupCount ((statsRows toISOString now s timeRange).map AlertRow.device_type) }

/-! ## Listing devices -/

/-- Query string of `GET /api/devices`: each parameter is absent or a string. -/
structure DevicesQuery where
  type : Option String
  status : Option String
  deriving DecidableEq, Repr

/-- The `conditions` array of the devices listing with its `params` bound. -/
def deviceConditions (q : DevicesQuery) : List (DeviceRow → Bool) :=
  (if truthy q.type && decide (q.type ≠ some "all") then
      [fun d => decide (some d.device_type = q.type)] else []) ++
  (if truthy q.status && decide (q.status ≠ some "all") then
      (if q.status = some "alerting" then [fun d => decide (d.is_alerting = some 1)]
       else [fun d => decide (d.status = q.status)])
    else [])

/-- `app.get('/api/devices', authenticateToken, ...)` of `server.js` and
`router.get('/', ...)` of `routes/devices.js` (the same body), once the request
is let through: the 500 response, or the rows of the 200 response. -/
def listDevices (err : Option String) (s : Store) (q : DevicesQuery) :
    Except Response (List DeviceRow) :=
  match err with
  | some _ => .error ⟨500, .error "Internal server error"⟩
  | none => .ok (s.devices.filter fun d => (deviceConditions q).all fun c => c d)

/-! ## The authentication gate and the client's response interceptor -/

/-- The payload `jwt.sign` puts in a token: `{ id, username, role }`. -/
structure Principal where
  id : Int
  username : String
  role : String
  deriving DecidableEq, Repr

/-- `String.prototype.split(' ')` on the characters of a string. -/
def splitSpaces : List Char → List (List Char)
  | [] => [[]]
  | c :: cs =>
    if c = ' ' then [] :: splitSpaces cs
    else
      match splitSpaces cs with
      | [] => [[c]]
      | w :: ws => (c :: w) :: ws

/-- `const token = authHeader && authHeader.split(' ')[1]`: `none` stands for
`undefined`. An absent header gives `undefined`, an empty one the empty string. -/
def extractToken (authHeader : Option String) : Option String :=
  match authHeader with
  | none => none
  | some h => if h = "" then some "" else ((splitSpaces h.toList)[1]?).map String.mk

/-- What a middleware does with a request: answer it, or call `next()` with
`req.user` set. -/
inductive GateResult where
  | respond (r : Response) : GateResult
  | next (user : Principal) : GateResult
  deriving DecidableEq, Repr

/-- `authenticateToken` of `server.js`. `verify` is `jwt.verify` with the
server's secret: the decoded payload, or `none` when it reports an error. -/
def authenticateToken (verify : String → Option Principal) (authHeader : Option String) :
    GateResult :=
  if truthy (extractToken authHeader) then
    match verify ((extractToken authHeader).getD "") with
    | none => .respond ⟨403, .error "Invalid or expired token"⟩
    | some user => .next user
  else .respond ⟨401, .error "Authentication token required"⟩

/-- What the client keeps in `localStorage` and where the window is. -/
structure ClientSession where
  authToken : Option String
  user : Option String
  location : String
  deriving DecidableEq, Repr

/-- The error branch of `apiClient.interceptors.response` (`api.service.js`):
`status` is `error.response.status`, `none` when there is no response. -/
def responseInterceptor (status : Option Nat) (c : ClientSession) : ClientSession :=
  if status = some 401 then { authToken := none, user := none, location := "/login" } else c

/-! ## The role gate and the device status update -/

/-- `authorize(roles)` of `server.js`, on a request whose `req.user` is `user`:
answer 403 or call `next()`. -/
def authorize (roles : List String) (user : Principal) : GateResult :=
  if ¬ user.role ∈ roles then .respond ⟨403, .error "Access denied"⟩ else .next user

/-- JavaScript `ToBoolean` on a JSON value: `!v` is its negation. -/
def Json.toBoolean : Json → Bool
  | .null => false
  | .bool b => b
  | .num n => decide (n ≠ 0)
  | .str s => decide (s ≠ "")
  | .arr _ => true
  | .obj _ => true

/-- `['active', 'inactive'].includes(status)`: only the two strings are
included. -/
def includesStatus : Json → Bool
  | .str v => decide (v = "active") || decide (v = "inactive")
  | _ => false

/-- The test `!status || !['active', 'inactive'].includes(status)` on the
`status` member of the body, `none` when the body has none. -/
def statusRejected (status : Option Json) : Bool :=
  match status with
  | none => true
  | some v => !v.toBoolean || !includesStatus v

/-- The text bound for `status` once the test has let it through. -/
def statusText : Option Json → Option String
  | some (.str v) => some v
  | _ => none

/-- Count of rows `UPDATE devices ... WHERE id = ?` reports in `this.changes`:
the column and the bound path parameter are both TEXT. -/
def deviceChanges (s : Store) (deviceId : String) : Nat :=
  (s.devices.filter fun d => decide (d.id = deviceId)).length

/-- `UPDATE devices SET status = ? WHERE id = ?`. -/
def setDeviceStatus (s : Store) (deviceId : String) (status : Option String) : Store :=
  { s with devices := s.devices.map fun d =>
      if d.id = deviceId then { d with status := status } else d }

/-- `router.put('/:id/status', ...)` of `routes/devices.js`, on the path
parameter `deviceId` and the `status` member of the body. -/
def updateDeviceStatus (err : Option String) (s : Store) (deviceId : String)
    (status : Option Json) : Outcome :=
  if statusRejected status then
    ⟨s, [], ⟨400, .error "Valid status (active/inactive) is required"⟩⟩
  else
    match err with
    | some _ => ⟨s, [], ⟨500, .error "Internal server error"⟩⟩
    | none =>
      if deviceChanges s deviceId = 0 then
        ⟨setDeviceStatus s deviceId (statusText status), [], ⟨404, .error "Device not found"⟩⟩
      else
        ⟨setDeviceStatus s deviceId (statusText status), [],
          ⟨200, .message "Device status updated successfully"⟩⟩

/-! ## The devices router (`routes/devices.js`) -/

/-- A segment of a route path: a literal, or a `:name` parameter. -/
inductive Segment where
  | lit (text : String) : Segment
  | param (name : String) : Segment
  deriving DecidableEq, Repr

/-- Express matching of a route path against a request path, both cut at the
slashes: a literal takes the segment equal to it up to case, a parameter takes
any one segment and records it. The result is `req.params`. -/
def matchPath : List Segment → List String → Option (List (String × String))
  | [], [] => some []
  | .lit t :: ps, x :: xs => if x.toLower = t.toLower then matchPath ps xs else none
  | .param n :: ps, x :: xs => (matchPath ps xs).map fun params => (n, x) :: params
  | _, _ => none

/-- The handlers of the devices router. -/
inductive DevicesHandler where
  | list : DevicesHandler
  | byId : DevicesHandler
  | updateStatus : DevicesHandler
  | stats : DevicesHandler
  deriving DecidableEq, Repr

/-- A registered route. -/
structure Route where
  method : String
  path : List Segment
  handler : DevicesHandler
  deriving DecidableEq, Repr

/-- The routes of `routes/devices.js` in the order of their registration:
`get('/')`, `get('/:id')`, `put('/:id/status')`, `get('/stats')`. -/
def devicesRoutes : List Route :=
  [⟨"GET", [], .list⟩,
   ⟨"GET", [.param "id"], .byId⟩,
   ⟨"PUT", [.param "id", .lit "status"], .updateStatus⟩,
   ⟨"GET", [.lit "stats"], .stats⟩]

/-- The route that handles a request: the first one, in registration order,
whose method and path match. No handler of the router calls `next()`, so no
later route is tried. -/
def route : List Route → String → List String →
    Option (DevicesHandler × List (String × String))
  | [], _, _ => none
  | r :: rs, method, path =>
    if r.method = method then
      match matchPath r.path path with
      | some params => some (r.handler, params)
      | none => route rs method path
    else route rs method path

/-- `GROUP BY` with `COUNT(*)` on a nullable key: the rows with `NULL` form one
group. -/
def groupCountNullable (keys : List (Option String)) : List (Option String × Nat) :=
  keys.dedup.map fun k => (k, keys.countP fun x => decide (x = k))

/-- Body of the device statistics. -/
structure DeviceStats where
  total : Nat
  byType : List (String × Nat)
  byStatus : List (Option String × Nat)
  deriving DecidableEq, Repr

/-- What the devices router answers. -/
inductive DevicesReply where
  | response (r : Response) : DevicesReply
  | devices (rows : List DeviceRow) : DevicesReply
  | device (row : DeviceRow) : DevicesReply
  | stats (st : DeviceStats) : DevicesReply
  deriving DecidableEq, Repr

/-- `router.get('/:id', ...)`: `db.get("SELECT * FROM devices WHERE id = ?")`
gives the first row selected, or none. -/
def getDevice (err : Option String) (s : Store) (deviceId : String) : DevicesReply :=
  match err with
  | some _ => .response ⟨500, .error "Internal server error"⟩
  | none =>
    match s.devices.find? fun d => decide (d.id = deviceId) with
    | none => .response ⟨404, .error "Device not found"⟩
    | some device => .device device

/-- `router.get('/stats', ...)`: the count of the devices and the two grouped
counts, `err1`, `err2`, `err3` being the errors of the three statements. -/
def deviceStats (err1 err2 err3 : Option String) (s : Store) : DevicesReply :=
  match err1 with
  | some _ => .response ⟨500, .error "Internal server error"⟩
  | none =>
    match err2 with
    | some _ => .response ⟨500, .error "Internal server error"⟩
    | none =>
      match err3 with
      | some _ => .response ⟨500, .error "Internal server error"⟩
      | none =>
        .stats
          { total := s.devices.length
            byType := groupCount (s.devices.map DeviceRow.device_type)
            byStatus := groupCountNullable (s.devices.map DeviceRow.status) }

/-- The devices router on a request: the store it leaves and its answer, or
`none` when no route matches. `err k` is the error of the statement number `k`
the handler runs. -/
def devicesRouter (err : Nat → Option String) (s : Store) (method : String)
    (path : List String) (query : DevicesQuery) (status : Option Json) :
    Option (Store × DevicesReply) :=
  match route devicesRoutes method path with
  | none => none
  | some (.list, _) =>
    match listDevices (err 0) s query with
    | .error r => some (s, .response r)
    | .ok rows => some (s, .devices rows)
  | some (.byId, params) => some (s, getDevice (err 0) s ((params.lookup "id").getD ""))
  | some (.updateStatus, params) =>
    some ((updateDeviceStatus (err 0) s ((params.lookup "id").getD "") status).store,
      .response (updateDeviceStatus (err 0) s ((params.lookup "id").getD "") status).response)
  | some (.stats, _) => some (s, deviceStats (err 0) (err 1) (err 2) s)

/-! ## Registration (`server.js`, `routes/auth.js`) -/

/-- Row of the `users` table. -/
structure UserRow where
  id : Int
  username : String
  password : String
  role : String
  email : Option String
  created_at : Option String
  last_login : Option String
  deriving DecidableEq, Repr

/-- Row of the `user_settings` table. -/
structure UserSettingsRow where
  user_id : Int
  notifications : Option String
  theme : Option String
  dashboard_layout : Option String
  deriving DecidableEq, Repr

/-- The two tables the register operation writes. -/
structure UserDb where
  users : List UserRow
  user_settings : List UserSettingsRow
  deriving DecidableEq, Repr

/-- The members of the body the register operation reads, for a body in which
each of them is absent or a string. -/
structure RegisterBody where
  username : Option String
  password : Option String
  role : Option String
  email : Option String
  deriving DecidableEq, Repr

/-- What one run of the register operation leaves behind. -/
structure RegisterOutcome where
  db : UserDb
  response : Response
  deriving DecidableEq, Repr

/-- Whether `INSERT INTO users` fails on a `UNIQUE` column: the username is
taken, or the email is not `NULL` and is taken. -/
def uniqueViolation (db : UserDb) (username : String) (email : Option String) : Bool :=
  db.users.any (fun u => decide (u.username = username)) ||
    (email.isSome && db.users.any fun u => decide (u.email = email))

/-- The body of the register handler, the same in `server.js` and in
`routes/auth.js`. `hash` is `bcrypt.hash(·, 10)`, `err` an error of the insert
other than a failed `UNIQUE` constraint, `now` is `CURRENT_TIMESTAMP` and
`rowid` the id the engine gives the new row (`this.lastID`). The insert into
`user_settings` has no callback: when it fails nothing is written. -/
def register (hash : String → String) (err : Option String) (now : String) (rowid : Int)
    (db : UserDb) (body : RegisterBody) : RegisterOutcome :=
  if !truthy body.username || !truthy body.password || !truthy body.role then
    ⟨db, ⟨400, .error "Username, password, and role are required"⟩⟩
  else if uniqueViolation db (body.username.getD "") body.email then
    ⟨db, ⟨409, .error "Username or email already exists"⟩⟩
  else
    match err with
    | some _ => ⟨db, ⟨500, .error "Internal server error"⟩⟩
    | none =>
      ⟨{ users := db.users ++
            [{ id := rowid, username := body.username.getD "",
               password := hash (body.password.getD ""), role := body.role.getD "",
               email := body.email, created_at := some now, last_login := none }]
         user_settings :=
            if db.user_settings.any fun r => decide (r.user_id = rowid) then db.user_settings
            else db.user_settings ++
              [{ user_id := rowid, notifications := none, theme := some "light",
                 dashboard_layout := none }] },
        ⟨201, .message "User registered successfully"⟩⟩

/-- `app.post('/api/auth/register', authenticateToken, authorize(['admin']), ...)`
of `server.js`: the two gates, then the handler. -/
def serverRegister (verify : String → Option Principal) (hash : String → String)
    (err : Option String) (now : String) (rowid : Int) (db : UserDb)
    (authHeader : Option String) (body : RegisterBody) : RegisterOutcome :=
  match authenticateToken verify authHeader with
  | .respond r => ⟨db, r⟩
  | .next user =>
    match authorize ["admin"] user with
    | .respond r => ⟨db, r⟩
    | .next _ => register hash err now rowid db body

/-- `router.post('/register', ...)` of `routes/auth.js`, under the comment
`Register route (admin only)`: the handler alone. `user` is `req.user`, which
the handler does not read. -/
def routerRegister (hash : String → String) (err : Option String) (now : String) (rowid : Int)
    (db : UserDb) (_user : Option Principal) (body : RegisterBody) : RegisterOutcome :=
  register hash err now rowid db body

/-! ## Input validation (`middleware/validation.js`) -/

/-- The characters `\s` matches in a JavaScript regular expression. -/
def isJsWhitespace (c : Char) : Bool :=
  decide (c.toNat ∈ [0x09, 0x0A, 0x0B, 0x0C, 0x0D, 0x20, 0xA0, 0x1680, 0x2028, 0x2029,
    0x202F, 0x205F, 0x3000, 0xFEFF]) || (decide (0x2000 ≤ c.toNat) && decide (c.toNat ≤ 0x200A))

/-- The classes of characters `emailRegex` tells apart: `\s`, `@`, `.` and the
rest. -/
inductive EmailClass where
  | space : EmailClass
  | atSign : EmailClass
  | dot : EmailClass
  | other : EmailClass
  deriving DecidableEq, Repr

/-- The class of a character. -/
def classify (c : Char) : EmailClass :=
  if isJsWhitespace c then .space
  else if c = '@' then .atSign
  else if c = '.' then .dot
  else .other

/-- The class `[^\s@]`: a dot or another character. -/
def notSpaceAt : RegularExpression EmailClass :=
  .plus (.char .dot) (.char .other)

/-- `[^\s@]+`: one `[^\s@]`, then any number of them. -/
def notSpaceAtPlus : RegularExpression EmailClass :=
  .comp notSpaceAt (.star notSpaceAt)

/-- `const emailRegex = /^[^\s@]+@[^\s@]+\.[^\s@]+$/` on the classes of the
characters; `^` and `$` make it a match of the whole string. -/
def emailRegex : RegularExpression EmailClass :=
  .comp notSpaceAtPlus
    (.comp (.char .atSign) (.comp notSpaceAtPlus (.comp (.char .dot) notSpaceAtPlus)))

/-- `validateEmail`: `emailRegex.test(email)`. -/
def validateEmail (email : String) : Bool :=
  emailRegex.rmatch (email.toList.map classify)

/-- `String.prototype.length`: the number of UTF-16 code units. -/
def utf16Length (text : String) : Nat :=
  (text.toList.map fun c => if c.toNat < 0x10000 then 1 else 2).sum

/-- What a validation middleware does: answer the request, or call `next()`. -/
inductive Validation where
  | respond (r : Response) : Validation
  | next : Validation
  deriving DecidableEq, Repr

/-- The members `username`, `password`, `role` and `email` of `req.body`, as
`bodyParser.json()` leaves them: each absent (`undefined`) or a JSON value of
any type. A number that is not an integer has no value of its own in `Json`;
in every check below it behaves as a nonzero integer does. -/
structure ValidationBody where
  username : Option Json
  password : Option Json
  role : Option Json
  email : Option Json

/-- JavaScript truthiness of a member of the body: `undefined` is falsy. -/
def jsTruthy : Option Json → Bool
  | none => false
  | some v => v.toBoolean

/-- `['admin', 'user', 'analyst'].includes(role)`: only the three strings are
included. -/
def includesRole : Json → Bool
  | .str r => decide (r ∈ ["admin", "user", "analyst"])
  | _ => false

/-- The string `emailRegex.test(email)` tests: a string as it is, any other
value after JavaScript's `ToString`, which is the argument `toStr`. -/
def emailText (toStr : Json → String) : Json → String
  | .str e => e
  | v => toStr v

/-- `password.length < 8`. The length of a string is its number of UTF-16 code
units, the length of an array its number of elements, the length of an object
its member `length`, if it has one, compared by `ltEight` (JavaScript's `v < 8`
on a JSON value). A number or a boolean has no `length`, and `undefined < 8` is
false. -/
def passwordTooShort (ltEight : Json → Bool) : Json → Bool
  | .str p => decide (utf16Length p < 8)
  | .arr items => decide (items.length < 8)
  | .obj fields =>
    match fields.lookup "length" with
    | some v => ltEight v
    | none => false
  | _ => false

/-- The test `!role || !['admin', 'user', 'analyst'].includes(role)`. -/
def roleRejected (role : Option Json) : Bool :=
  !jsTruthy role ||
    !(match role with
      | some r => includesRole r
      | none => false)

/-- The test `email && !validateEmail(email)`. -/
def emailRejected (toStr : Json → String) (email : Option Json) : Bool :=
  jsTruthy email &&
    !validateEmail (match email with
      | some e => emailText toStr e
      | none => "")

/-- The test `password.length < 8`, reached with a truthy password. -/
def lengthRejected (ltEight : Json → Bool) (password : Option Json) : Bool :=
  match password with
  | some p => passwordTooShort ltEight p
  | none => false

/-- `validateRegistration` on the members of `req.body`. -/
def validateRegistration (toStr : Json → String) (ltEight : Json → Bool)
    (body : ValidationBody) : Validation :=
  if !jsTruthy body.username || !jsTruthy body.password then
    .respond ⟨400, .error "Username and password are required"⟩
  else if roleRejected body.role then
    .respond ⟨400, .error "Valid role is required"⟩
  else if emailRejected toStr body.email then
    .respond ⟨400, .error "Invalid email format"⟩
  else if lengthRejected ltEight body.password then
    .respond ⟨400, .error "Password must be at least 8 characters"⟩
  else .next

/-! ## The text of the list statements and the client's request interceptor -/

/-- The `conditions` array of the alerts listing, as the handler pushes it. -/
def alertsConditionsSql (q : AlertsQuery) : List String :=
  (if truthy q.severity && decide (q.severity ≠ some "all") then ["severity = ?"] else []) ++
  (if truthy q.acknowledged && decide (q.acknowledged ≠ some "all") then
      ["acknowledged = ?"] else []) ++
  (if truthy q.timeRange then ["timestamp > ?"] else [])

/-- The `params` array of the alerts listing, the limit last. -/
def alertsParams (toISOString : Int → String) (now : Int) (q : AlertsQuery) : List SqlValue :=
  (if truthy q.severity && decide (q.severity ≠ some "all") then
      [SqlValue.text (q.severity.getD "")] else []) ++
  (if truthy q.acknowledged && decide (q.acknowledged ≠ some "all") then
      [SqlValue.integer (if q.acknowledged = some "true" then 1 else 0)] else []) ++
  (if truthy q.timeRange then
      [SqlValue.text (toISOString (now - windowMs (q.timeRange.getD "")))] else []) ++
  [boundLimit q]

/-- `if (conditions.length > 0) query += " WHERE " + conditions.join(' AND ')`. -/
def whereClause (conds : List String) : String :=
  if conds.length > 0 then " WHERE " ++ " AND ".intercalate conds else ""

/-- The text of the statement of the alerts listing. -/
def alertsSql (q : AlertsQuery) : String :=
  "SELECT * FROM alerts" ++ whereClause (alertsConditionsSql q)
    ++ " ORDER BY timestamp DESC LIMIT ?"

/-- The `conditions` array of the devices listing. -/
def devicesConditionsSql (q : DevicesQuery) : List String :=
  (if truthy q.type && decide (q.type ≠ some "all") then ["device_type = ?"] else []) ++
  (if truthy q.status && decide (q.status ≠ some "all") then
      (if q.status = some "alerting" then ["is_alerting = 1"] else ["status = ?"])
    else [])

/-- The `params` array of the devices listing. -/
def devicesParams (q : DevicesQuery) : List SqlValue :=
  (if truthy q.type && decide (q.type ≠ some "all") then
      [SqlValue.text (q.type.getD "")] else []) ++
  (if truthy q.status && decide (q.status ≠ some "all") then
      (if q.status = some "alerting" then [] else [SqlValue.text (q.status.getD "")])
    else [])

/-- The text of the statement of the devices listing. -/
def devicesSql (q : DevicesQuery) : String :=
  "SELECT * FROM devices" ++ whereClause (devicesConditionsSql q)

/-- The number of `?` in a statement. -/
def placeholders (sql : String) : Nat :=
  sql.toList.count '?'

/-- The request interceptor of `api.service.js`: the `Authorization` header it
sets, from the `authToken` of `localStorage`; `none` when it sets none. -/
def requestInterceptor (authToken : Option String) : Option String :=
  if truthy authToken then some ("Bearer " ++ authToken.getD "") else none

/-! ## Notions the properties are stated with -/

/-- The columns of an alert that no acknowledge statement assigns. -/
def AlertRow.eventFields (r : AlertRow) :
    Int × String × String × String × String × Option String × String × Option String :=
  (r.id, r.device_id, r.device_type, r.alert_type, r.severity, r.description,
    r.timestamp, r.data)

/-- The acknowledgment columns of a row are all-or-nothing: `acknowledged_by` and
`acknowledged_at` are both present when `acknowledged = 1` and both absent
otherwise. -/
def ackAllOrNothing (r : AlertRow) : Bool :=
  if r.acknowledged = some 1 then r.acknowledged_by.isSome && r.acknowledged_at.isSome
  else r.acknowledged_by.isNone && r.acknowledged_at.isNone

/-- Every alert of the store has all-or-nothing acknowledgment columns. -/
def Store.allOrNothing (s : Store) : Bool :=
  s.alerts.all ackAllOrNothing

/-- The alerts of a device that are not acknowledged. -/
def Store.unacknowledgedOf (s : Store) (deviceId : String) : List AlertRow :=
  s.alerts.filter fun r => decide (r.device_id = deviceId) && decide (r.acknowledged ≠ some 1)

/-- Whether an emitted event is an `alert_updated`. -/
def Event.isAlertUpdated : Event → Bool
  | .alert_updated _ _ => true
  | .new_alert _ => false

/-- Whether an emitted event is a `new_alert`. -/
def Event.isNewAlert : Event → Bool
  | .new_alert _ => true
  | .alert_updated _ _ => false

/-- The rows of a response, when it is a listing. -/
def Response.rows (r : Response) : List AlertRow :=
  match r.body with
  | .alerts rows => rows
  | _ => []

/-- Sum of the counts of a grouped result. -/
def countSum (groups : List (String × Nat)) : Nat :=
  (groups.map Prod.snd).sum

/-- The severity filter of a request as a predicate on a row: a parameter that
is absent, empty or `all` asks for nothing. -/
def severityOk (q : AlertsQuery) (r : AlertRow) : Bool :=
  match q.severity with
  | none => true
  | some v => decide (v = "") || decide (v = "all") || decide (r.severity = v)

/-- The acknowledgment filter of a request as a predicate on a row: the state
asked for is 1 for `true` and 0 for any other value that is not empty or `all`. -/
def acknowledgedOk (q : AlertsQuery) (r : AlertRow) : Bool :=
  match q.acknowledged with
  | none => true
  | some v => decide (v = "") || decide (v = "all") ||
      decide (r.acknowledged = some (if v = "true" then 1 else 0))

/-- The time filter of a request as a predicate on a row: the timestamp is
strictly after the cutoff of the window, when a window is given. -/
def timeRangeOk (toISOString : Int → String) (now : Int) (q : AlertsQuery) (r : AlertRow) :
    Bool :=
  match q.timeRange with
  | none => true
  | some v => decide (v = "") || decide (toISOString (now - windowMs v) < r.timestamp)

/-- The rows of the table that satisfy every filter of the request. -/
def matchingAlerts (toISOString : Int → String) (now : Int) (s : Store) (q : AlertsQuery) :
    List AlertRow :=
  s.alerts.filter fun r =>
    severityOk q r && acknowledgedOk q r && timeRangeOk toISOString now q r

/-- The devices filter as C19 words it: an absent or `all` parameter adds no
predicate, a type `t` means `device_type = t`, the status `alerting` means
`is_alerting = 1`, another status `v` means `status = v`. -/
def deviceSelectedAsClaimed (q : DevicesQuery) (d : DeviceRow) : Bool :=
  (match q.type with
    | none => true
    | some t => decide (t = "all") || decide (d.device_type = t)) &&
  (match q.status with
    | none => true
    | some v =>
      if v = "all" then true
      else if v = "alerting" then decide (d.is_alerting = some 1)
      else decide (d.status = some v))

/-- The devices filter with the empty string counted with the absent and the
`all` parameters. -/
def deviceSelected (q : DevicesQuery) (d : DeviceRow) : Bool :=
  (match q.type with
    | none => true
    | some t => decide (t = "") || decide (t = "all") || decide (d.device_type = t)) &&
  (match q.status with
    | none => true
    | some v =>
      if v = "" then true
      else if v = "all" then true
      else if v = "alerting" then decide (d.is_alerting = some 1)
      else decide (d.status = some v))

/-- The columns of a device that the status update does not assign. -/
def DeviceRow.otherFields (d : DeviceRow) :
    String × String × Option String × Option String × Option String × Option String ×
      Option Int × Option String :=
  (d.id, d.device_type, d.public_key, d.last_seen, d.location, d.ip_address, d.is_alerting,
    d.created_at)

/-- The shape of an accepted email as C28 words it, on the characters of the
string: no whitespace, exactly one `@`, at least one character before it, and
after it a `.` with at least one character before and one after. -/
def emailAsClaimed (s : List Char) : Prop :=
  (∀ c ∈ s, isJsWhitespace c = false) ∧ s.count '@' = 1 ∧
  ∃ before after : List Char, s = before ++ '@' :: after ∧ before ≠ [] ∧
    ∃ host tail : List Char, after = host ++ '.' :: tail ∧ host ≠ [] ∧ tail ≠ []

/-- A character of the class `[^\s@]`. -/
def plainChar (c : Char) : Prop :=
  isJsWhitespace c = false ∧ c ≠ '@'

/-- The bodies C27 says `validateRegistration` lets through: username and
password not empty, role one of the three, email absent or accepted by
`validateEmail`, password of at least 8 characters. -/
def registrationAcceptedAsClaimed (toStr : Json → String) (body : ValidationBody) : Bool :=
  jsTruthy body.username && jsTruthy body.password &&
  (match body.role with
    | some (.str r) => decide (r ∈ ["admin", "user", "analyst"])
    | _ => false) &&
  (match body.email with
    | none => true
    | some e => validateEmail (emailText toStr e)) &&
  (match body.password with
    | some (.str p) => decide (8 ≤ utf16Length p)
    | _ => false)

/-- A role that passes: one of the three strings. -/
def roleAccepted (role : Option Json) : Bool :=
  match role with
  | some (.str r) => decide (r ∈ ["admin", "user", "analyst"])
  | _ => false

/-- An email that passes: absent, falsy (`null`, the empty string, `false`, 0),
or with a string form that `validateEmail` accepts. -/
def emailAccepted (toStr : Json → String) (email : Option Json) : Bool :=
  match email with
  | none => true
  | some e => !e.toBoolean || validateEmail (emailText toStr e)

/-- A password that is not too short: a string of at least 8 UTF-16 code
units, an array of at least 8 elements, an object with no member `length` or
with one that is not below 8, or a value with no length (a number, a
boolean). -/
def passwordLongEnough (ltEight : Json → Bool) (password : Option Json) : Bool :=
  match password with
  | some (.str p) => decide (8 ≤ utf16Length p)
  | some (.arr items) => decide (8 ≤ items.length)
  | some (.obj fields) =>
    (match fields.lookup "length" with
      | some v => !ltEight v
      | none => true)
  | _ => true

/-- The bodies `validateRegistration` lets through: username and password
truthy, an accepted role, an accepted email and a password that is not too
short. -/
def registrationAccepted (toStr : Json → String) (ltEight : Json → Bool)
    (body : ValidationBody) : Bool :=
  jsTruthy body.username && jsTruthy body.password && roleAccepted body.role &&
    emailAccepted toStr body.email && passwordLongEnough ltEight body.password

/-- Two alert requests supply the same set of filters, as C29 words it: the
same parameters are present and the same ones are `all`. -/
def sameAlertFiltersAsClaimed (q1 q2 : AlertsQuery) : Prop :=
  q1.severity.isSome = q2.severity.isSome ∧
  (q1.severity = some "all" ↔ q2.severity = some "all") ∧
  q1.acknowledged.isSome = q2.acknowledged.isSome ∧
  (q1.acknowledged = some "all" ↔ q2.acknowledged = some "all") ∧
  q1.timeRange.isSome = q2.timeRange.isSome

/-- The same with "present" read as present and not empty. -/
def sameAlertFilters (q1 q2 : AlertsQuery) : Prop :=
  truthy q1.severity = truthy q2.severity ∧
  (q1.severity = some "all" ↔ q2.severity = some "all") ∧
  truthy q1.acknowledged = truthy q2.acknowledged ∧
  (q1.acknowledged = some "all" ↔ q2.acknowledged = some "all") ∧
  truthy q1.timeRange = truthy q2.timeRange

/-- Two device requests supply the same set of filters: the same parameters are
present and not empty, and the same ones are `all` or `alerting`. -/
def sameDeviceFilters (q1 q2 : DevicesQuery) : Prop :=
  truthy q1.type = truthy q2.type ∧
  (q1.type = some "all" ↔ q2.type = some "all") ∧
  truthy q1.status = truthy q2.status ∧
  (q1.status = some "all" ↔ q2.status = some "all") ∧
  (q1.status = some "alerting" ↔ q2.status = some "alerting")

/-! ## Sample data -/

/-- A reading of bound TEXT that knows the text `1` and nothing else. -/
def numOne (t : String) : Option Int :=
  if t = "1" then some 1 else none

/-- An unacknowledged alert of device `kb-001`. -/
def sampleAlert : AlertRow :=
  { id := 1, device_id := "kb-001", device_type := "keyboard",
    alert_type := "unusual_typing_pattern", severity := "medium",
    description := some "Unusual typing pattern detected",
    timestamp := "2025-04-17T14:32:15", data := none,
    acknowledged := some 0, acknowledged_by := none, acknowledged_at := none }

/-- The device `kb-001`, flagged as alerting. -/
def sampleDevice : DeviceRow :=
  { id := "kb-001", device_type := "keyboard", public_key := none,
    status := some "active", last_seen := some "2025-04-17T14:55:12",
    location := some "player_station_1", ip_address := some "10.0.1.101",
    is_alerting := some 1, created_at := some "2025-04-01 09:00:00" }

/-- A store with one device and its one, unacknowledged, alert. -/
def sampleStore : Store :=
  ⟨[sampleAlert], [sampleDevice]⟩

/-- The empty query string. -/
def emptyQuery : AlertsQuery :=
  ⟨none, none, none, none⟩

/-- Text of a well-formed anomaly event. -/
def sampleEventText : String :=
  "\x7b\"deviceId\":\"mouse-003\",\"deviceType\":\"mouse\",\"alertType\":\"motion\",\"severity\":\"high\",\"timestamp\":\"2025-04-17T14:28:45Z\",\"description\":\"fast\",\"payload\":\x7b\x7d\x7d"

/-- The value `JSON.parse` returns for `sampleEventText`. -/
def sampleEvent : Json :=
  .obj [("deviceId", .str "mouse-003"), ("deviceType", .str "mouse"),
    ("alertType", .str "motion"), ("severity", .str "high"),
    ("timestamp", .str "2025-04-17T14:28:45Z"), ("description", .str "fast"),
    ("payload", .obj [])]

/-- Text of the malformed event. -/
def malformedText : String :=
  "\x7b\"deviceId\":null\x7d"

/-- The malformed event `{deviceId: null}`. -/
def malformedEvent : Json :=
  .obj [("deviceId", .null)]

/-- `JSON.parse` on the texts of the examples: the two event texts decode, the
rest of the texts used here is not JSON. -/
def parseSample (t : String) : Option Json :=
  if t = sampleEventText then some sampleEvent
  else if t = malformedText then some malformedEvent
  else none

/-- A reading of bound TEXT that knows the texts `1`, `2` and `-1`. -/
def numSmall (t : String) : Option Int :=
  if t = "1" then some 1
  else if t = "2" then some 2
  else if t = "-1" then some (-1)
  else none

/-- The instant 2025-04-17T15:00:00Z in milliseconds. -/
def nowSample : Int := 1744902000000

/-- The instant 2025-05-17T15:00:00Z in milliseconds. -/
def nowLater : Int := 1747494000000

/-- `toISOString` on the cutoffs of the examples: one hour and one day before
`nowSample`, one day before `nowLater`. -/
def isoSample (ms : Int) : String :=
  if ms = 1744898400000 then "2025-04-17T14:00:00.000Z"
  else if ms = 1744815600000 then "2025-04-16T15:00:00.000Z"
  else if ms = 1747407600000 then "2025-05-16T15:00:00.000Z"
  else ""

/-- A store with 51 alerts, ids 1 to 51, all of 2025-04-17T14:32:15. -/
def bigStore : Store :=
  ⟨(List.range 51).map fun (i : Nat) => { sampleAlert with id := Int.ofNat i + 1 },
    [sampleDevice]⟩

/-- A store with three alerts of severities low, high and critical. -/
def severityStore : Store :=
  ⟨[{ sampleAlert with id := 1, severity := "low", timestamp := "2025-04-17T14:20:35" },
    { sampleAlert with id := 2, severity := "high", timestamp := "2025-04-17T14:28:45" },
    { sampleAlert with id := 3, severity := "critical", timestamp := "2025-04-17T14:30:22" }],
   [sampleDevice]⟩

/-- A `jwt.verify` that accepts the token `good` and reports an error on every
other token. -/
def verifySample (token : String) : Option Principal :=
  if token = "good" then some ⟨1, "admin", "admin"⟩ else none

/-- A client that is logged in. -/
def sampleSession : ClientSession :=
  ⟨some "expired", some "admin", "/dashboard"⟩

/-- A `bcrypt.hash` for the examples. -/
def hashSample (password : String) : String :=
  "$2b$10$" ++ password

/-- A user database with the default admin only. -/
def sampleUsers : UserDb :=
  ⟨[{ id := 1, username := "admin", password := "$2b$10$admin123", role := "admin",
      email := some "admin@example.com", created_at := some "2025-04-01 09:00:00",
      last_login := none }],
   []⟩

/-- A registration body that asks for an admin account. -/
def sampleRegistration : RegisterBody :=
  ⟨some "eve", some "password1", some "admin", none⟩

/-- JavaScript's `String(v)` for the examples, which apply it to no number and
to no array. -/
def toStrSample : Json → String
  | .str t => t
  | .null => "null"
  | .bool true => "true"
  | .bool false => "false"
  | _ => "[object Object]"

/-- JavaScript's `v < 8` for the examples, which apply it to no string, array or
object. -/
def ltEightSample : Json → Bool
  | .num n => decide (n < 8)
  | .null => true
  | .bool _ => true
  | _ => false

/-! ## Lemmas on the two `UPDATE` statements -/

theorem idMatches_iff (num : String → Option Int) (alertId : String) (r : AlertRow) :
    idMatches num alertId r = true ↔ num alertId = some r.id := by
  simp [idMatches]

theorem changes_setAcknowledged (num : String → Option Int) (s : Store) (alertId : String) :
    changes num (setAcknowledged num s alertId) alertId = changes num s alertId := by
  simp only [changes, setAcknowledged, List.filter_map, List.length_map]
  congr 1
  apply List.filter_congr
  intro r _
  simp only [Function.comp_apply]
  split <;> rfl

theorem changes_setAcknowledgedBy (num : String → Option Int) (now : String) (s : Store)
    (userId : Int) (alertId : String) :
    changes num (setAcknowledgedBy num now s userId alertId) alertId = changes num s alertId := by
  simp only [changes, setAcknowledgedBy, List.filter_map, List.length_map]
  congr 1
  apply List.filter_congr
  intro r _
  simp only [Function.comp_apply]
  split <;> rfl

theorem changes_pos_of_mem (num : String → Option Int) (s : Store) (alertId : String)
    (h : ∃ r ∈ s.alerts, num alertId = some r.id) : 0 < changes num s alertId := by
  obtain ⟨r, hr, hm⟩ := h
  unfold changes
  apply List.length_pos_of_mem
  exact List.mem_filter.mpr ⟨hr, (idMatches_iff num alertId r).mpr hm⟩

theorem changes_eq_zero_of_not_mem (num : String → Option Int) (s : Store) (alertId : String)
    (h : ∀ r ∈ s.alerts, num alertId ≠ some r.id) : changes num s alertId = 0 := by
  unfold changes
  rw [List.length_eq_zero, List.filter_eq_nil_iff]
  intro r hr hm
  exact h r hr ((idMatches_iff num alertId r).mp hm)

theorem changes_eq_one (num : String → Option Int) (s : Store) (alertId : String)
    (hkey : (s.alerts.map AlertRow.id).Nodup)
    (h : ∃ r ∈ s.alerts, num alertId = some r.id) : changes num s alertId = 1 := by
  obtain ⟨r, hr, hm⟩ := h
  have hcount : List.count r.id (s.alerts.map AlertRow.id) = 1 :=
    List.count_eq_one_of_mem hkey (List.mem_map_of_mem _ hr)
  rw [List.count, List.countP_map, List.countP_eq_length_filter] at hcount
  rw [← hcount]
  unfold changes
  congr 1
  apply List.filter_congr
  intro x _
  by_cases hx : x.id = r.id
  · simp [idMatches, hm, hx]
  · simp [idMatches, hm, hx, Ne.symm hx]

theorem setAcknowledged_not_mem (num : String → Option Int) (s : Store) (alertId : String)
    (h : ∀ r ∈ s.alerts, num alertId ≠ some r.id) : setAcknowledged num s alertId = s := by
  unfold setAcknowledged
  have : (s.alerts.map fun r =>
      if idMatches num alertId r then { r with acknowledged := some 1 } else r) = s.alerts := by
    conv_rhs => rw [← List.map_id s.alerts]
    apply List.map_congr_left
    intro r hr
    have : idMatches num alertId r = false := by
      simpa [idMatches] using h r hr
    simp [this]
  rw [this]

theorem setAcknowledgedBy_not_mem (num : String → Option Int) (now : String) (s : Store)
    (userId : Int) (alertId : String)
    (h : ∀ r ∈ s.alerts, num alertId ≠ some r.id) :
    setAcknowledgedBy num now s userId alertId = s := by
  unfold setAcknowledgedBy
  have : (s.alerts.map fun r =>
      if idMatches num alertId r then
        { r with acknowledged := some 1, acknowledged_by := some userId,
                 acknowledged_at := some now }
      else r) = s.alerts := by
    conv_rhs => rw [← List.map_id s.alerts]
    apply List.map_congr_left
    intro r hr
    have : idMatches num alertId r = false := by
      simpa [idMatches] using h r hr
    simp [this]
  rw [this]

theorem setAcknowledged_idem (num : String → Option Int) (s : Store) (alertId : String) :
    setAcknowledged num (setAcknowledged num s alertId) alertId
      = setAcknowledged num s alertId := by
  simp only [setAcknowledged, List.map_map]
  congr 1
  apply List.map_congr_left
  intro r _
  simp only [Function.comp_apply]
  by_cases h : num alertId = some r.id <;> simp [idMatches, h]

theorem setAcknowledgedBy_overwrite (num : String → Option Int) (t1 t2 : String) (s : Store)
    (p1 p2 : Int) (alertId : String) :
    setAcknowledgedBy num t2 (setAcknowledgedBy num t1 s p1 alertId) p2 alertId
      = setAcknowledgedBy num t2 s p2 alertId := by
  simp only [setAcknowledgedBy, List.map_map]
  congr 1
  apply List.map_congr_left
  intro r _
  simp only [Function.comp_apply]
  by_cases h : num alertId = some r.id <;> simp [idMatches, h]

theorem serverAcknowledge_store (num : String → Option Int) (s : Store) (alertId : String) :
    (serverAcknowledge num none s alertId).store = setAcknowledged num s alertId := by
  unfold serverAcknowledge
  split_ifs <;> rfl

theorem routerAcknowledge_store (num : String → Option Int) (now : String) (s : Store)
    (alertId : String) (userId : Int) :
    (routerAcknowledge num none now s alertId userId).store
      = setAcknowledgedBy num now s userId alertId := by
  unfold routerAcknowledge
  split_ifs <;> rfl

theorem serverAcknowledge_found (num : String → Option Int) (s : Store) (alertId : String)
    (h : ∃ r ∈ s.alerts, num alertId = some r.id) :
    serverAcknowledge num none s alertId
      = ⟨setAcknowledged num s alertId, [.alert_updated alertId true],
          ⟨200, .message "Alert acknowledged successfully"⟩⟩ := by
  have hpos := changes_pos_of_mem num s alertId h
  unfold serverAcknowledge
  rw [if_neg (by omega)]

theorem routerAcknowledge_found (num : String → Option Int) (now : String) (s : Store)
    (alertId : String) (userId : Int) (h : ∃ r ∈ s.alerts, num alertId = some r.id) :
    routerAcknowledge num none now s alertId userId
      = ⟨setAcknowledgedBy num now s userId alertId, [],
          ⟨200, .message "Alert acknowledged successfully"⟩⟩ := by
  have hpos := changes_pos_of_mem num s alertId h
  unfold routerAcknowledge
  rw [if_neg (by omega)]

theorem mem_setAcknowledged (num : String → Option Int) (s : Store) (alertId : String)
    (h : ∃ r ∈ s.alerts, num alertId = some r.id) :
    ∃ r ∈ (setAcknowledged num s alertId).alerts, num alertId = some r.id := by
  have hpos := changes_pos_of_mem num s alertId h
  rw [← changes_setAcknowledged] at hpos
  unfold changes at hpos
  obtain ⟨r, hr⟩ := List.exists_mem_of_length_pos hpos
  rw [List.mem_filter] at hr
  exact ⟨r, hr.1, (idMatches_iff num alertId r).mp hr.2⟩

theorem mem_setAcknowledgedBy (num : String → Option Int) (now : String) (s : Store)
    (userId : Int) (alertId : String) (h : ∃ r ∈ s.alerts, num alertId = some r.id) :
    ∃ r ∈ (setAcknowledgedBy num now s userId alertId).alerts, num alertId = some r.id := by
  have hpos := changes_pos_of_mem num s alertId h
  rw [← changes_setAcknowledgedBy num now s userId] at hpos
  unfold changes at hpos
  obtain ⟨r, hr⟩ := List.exists_mem_of_length_pos hpos
  rw [List.mem_filter] at hr
  exact ⟨r, hr.1, (idMatches_iff num alertId r).mp hr.2⟩

theorem ids_setAcknowledged (num : String → Option Int) (s : Store) (alertId : String) :
    (setAcknowledged num s alertId).alerts.map AlertRow.id = s.alerts.map AlertRow.id := by
  simp only [setAcknowledged, List.map_map]
  apply List.map_congr_left
  intro r _
  simp only [Function.comp_apply]
  split <;> rfl

theorem eventFields_setAcknowledgedBy (num : String → Option Int) (now : String) (s : Store)
    (userId : Int) (alertId : String) :
    (setAcknowledgedBy num now s userId alertId).alerts.map AlertRow.eventFields
      = s.alerts.map AlertRow.eventFields := by
  simp only [setAcknowledgedBy, List.map_map]
  apply List.map_congr_left
  intro r _
  simp only [Function.comp_apply]
  split <;> rfl

theorem ids_setAcknowledgedBy (num : String → Option Int) (now : String) (s : Store)
    (userId : Int) (alertId : String) :
    (setAcknowledgedBy num now s userId alertId).alerts.map AlertRow.id
      = s.alerts.map AlertRow.id := by
  simp only [setAcknowledgedBy, List.map_map]
  apply List.map_congr_left
  intro r _
  simp only [Function.comp_apply]
  split <;> rfl

theorem acknowledged_of_mem_setAcknowledgedBy (num : String → Option Int) (now : String)
    (s : Store) (userId : Int) (alertId : String) (r : AlertRow)
    (hr : r ∈ (setAcknowledgedBy num now s userId alertId).alerts)
    (hm : num alertId = some r.id) :
    r.acknowledged = some 1 ∧ r.acknowledged_by = some userId
      ∧ r.acknowledged_at = some now := by
  simp only [setAcknowledgedBy, List.mem_map] at hr
  obtain ⟨r0, _, rfl⟩ := hr
  by_cases h : num alertId = some r0.id
  · simp [idMatches, h]
  · simp [idMatches, h] at hm

theorem getElem?_setAcknowledgedBy_other (num : String → Option Int) (now : String)
    (s : Store) (userId : Int) (alertId : String) (k : Nat) (r : AlertRow)
    (hk : s.alerts[k]? = some r) (hm : num alertId ≠ some r.id) :
    (setAcknowledgedBy num now s userId alertId).alerts[k]? = some r := by
  simp only [setAcknowledgedBy, List.getElem?_map, hk, Option.map_some']
  simp [idMatches, hm]

/-! ## The acknowledgment lifecycle -/

/-- C1, as stated, fails. On the sample store, after principal 7 has acknowledged
alert 1, the acknowledge by principal 8 changes one row, not zero, in both
handlers, and the `routes/alerts.js` handler leaves a different store: the
acknowledger and the acknowledgment time are those of the second call. -/
theorem acknowledge_second_call_counterexample :
    changes numOne (serverAcknowledge numOne none sampleStore "1").store "1" ≠ 0 ∧
    changes numOne
      (routerAcknowledge numOne none "2025-04-17 15:00:00" sampleStore "1" 7).store "1" ≠ 0 ∧
    (routerAcknowledge numOne none "2025-04-17 16:00:00"
        (routerAcknowledge numOne none "2025-04-17 15:00:00" sampleStore "1" 7).store
        "1" 8).store
      ≠ (routerAcknowledge numOne none "2025-04-17 15:00:00" sampleStore "1" 7).store ∧
    (routerAcknowledge numOne none "2025-04-17 16:00:00"
        (routerAcknowledge numOne none "2025-04-17 15:00:00" sampleStore "1" 7).store
        "1" 8).store.alerts.map (fun r => (r.acknowledged_by, r.acknowledged_at))
      = [(some 8, some "2025-04-17 16:00:00")] := by
  decide

/-- C1, amended. For every store with unique alert ids and every existing alert,
a second acknowledge changes one row again (not zero). The `server.js` handler
then leaves the whole store as the first call left it. The `routes/alerts.js`
handler leaves the store the second call alone would have produced: the alert
has `acknowledged = 1` with the acknowledger and the time of the second call,
while its other columns, every other row and the devices are as the first call
left them. -/
theorem acknowledge_second_call (num : String → Option Int) (s : Store) (alertId : String)
    (p1 p2 : Int) (t1 t2 : String)
    (hkey : (s.alerts.map AlertRow.id).Nodup)
    (hex : ∃ r ∈ s.alerts, num alertId = some r.id) :
    changes num (serverAcknowledge num none s alertId).store alertId = 1 ∧
    changes num (routerAcknowledge num none t1 s alertId p1).store alertId = 1 ∧
    (serverAcknowledge num none (serverAcknowledge num none s alertId).store alertId).store
      = (serverAcknowledge num none s alertId).store ∧
    (routerAcknowledge num none t2
        (routerAcknowledge num none t1 s alertId p1).store alertId p2).store
      = (routerAcknowledge num none t2 s alertId p2).store ∧
    (∀ r ∈ (routerAcknowledge num none t2
        (routerAcknowledge num none t1 s alertId p1).store alertId p2).store.alerts,
      num alertId = some r.id →
        r.acknowledged = some 1 ∧ r.acknowledged_by = some p2 ∧ r.acknowledged_at = some t2) ∧
    (routerAcknowledge num none t2
        (routerAcknowledge num none t1 s alertId p1).store alertId p2).store.alerts.map
        AlertRow.eventFields
      = (routerAcknowledge num none t1 s alertId p1).store.alerts.map AlertRow.eventFields ∧
    (∀ (k : Nat) (r : AlertRow),
      (routerAcknowledge num none t1 s alertId p1).store.alerts[k]? = some r →
      num alertId ≠ some r.id →
      (routerAcknowledge num none t2
        (routerAcknowledge num none t1 s alertId p1).store alertId p2).store.alerts[k]?
        = some r) ∧
    (routerAcknowledge num none t2
        (routerAcknowledge num none t1 s alertId p1).store alertId p2).store.devices
      = (routerAcknowledge num none t1 s alertId p1).store.devices := by
  simp only [serverAcknowledge_store, routerAcknowledge_store]
  refine ⟨?_, ?_, ?_, ?_, ?_, ?_, ?_, ?_⟩
  · rw [changes_setAcknowledged]
    exact changes_eq_one num s alertId hkey hex
  · rw [changes_setAcknowledgedBy]
    exact changes_eq_one num s alertId hkey hex
  · exact setAcknowledged_idem num s alertId
  · exact setAcknowledgedBy_overwrite num t1 t2 s p1 p2 alertId
  · intro r hr hm
    exact acknowledged_of_mem_setAcknowledgedBy num t2 _ p2 alertId r hr hm
  · exact eventFields_setAcknowledgedBy num t2 _ p2 alertId
  · intro k r hk hm
    exact getElem?_setAcknowledgedBy_other num t2 _ p2 alertId k r hk hm
  · rfl

/-- The sample store has unique ids and holds alert 1, so the amended C1 applies
to it. -/
theorem acknowledge_second_call_witness :
    (sampleStore.alerts.map AlertRow.id).Nodup ∧
    (∃ r ∈ sampleStore.alerts, numOne "1" = some r.id) ∧
    changes numOne (serverAcknowledge numOne none sampleStore "1").store "1" = 1 :=
  ⟨by decide, ⟨sampleAlert, by decide, by decide⟩,
    (acknowledge_second_call numOne sampleStore "1" 7 8 "2025-04-17 15:00:00"
      "2025-04-17 16:00:00" (by decide) ⟨sampleAlert, by decide, by decide⟩).1⟩

/-- C2, as stated, fails. On the sample store, two calls of the `server.js`
acknowledge handler on alert 1 emit two `alert_updated` events, not one. -/
theorem acknowledge_twice_events_counterexample :
    ((serverAcknowledge numOne none sampleStore "1").events ++
      (serverAcknowledge numOne none
        (serverAcknowledge numOne none sampleStore "1").store "1").events).countP
      Event.isAlertUpdated = 2 ∧
    ((serverAcknowledge numOne none sampleStore "1").events ++
      (serverAcknowledge numOne none
        (serverAcknowledge numOne none sampleStore "1").store "1").events).countP
      Event.isAlertUpdated ≠ 1 := by
  decide

/-- C2, amended. For every store and every existing alert, each of two
sequential calls of the `server.js` acknowledge handler emits one
`alert_updated` event for the alert, two in total. -/
theorem acknowledge_twice_events (num : String → Option Int) (s : Store) (alertId : String)
    (hex : ∃ r ∈ s.alerts, num alertId = some r.id) :
    (serverAcknowledge num none s alertId).events = [Event.alert_updated alertId true] ∧
    (serverAcknowledge num none (serverAcknowledge num none s alertId).store alertId).events
      = [Event.alert_updated alertId true] ∧
    ((serverAcknowledge num none s alertId).events ++
      (serverAcknowledge num none
        (serverAcknowledge num none s alertId).store alertId).events).countP
      Event.isAlertUpdated = 2 := by
  have h1 := serverAcknowledge_found num s alertId hex
  have h2 := serverAcknowledge_found num (setAcknowledged num s alertId) alertId
    (mem_setAcknowledged num s alertId hex)
  rw [serverAcknowledge_store, h2, h1]
  exact ⟨rfl, rfl, rfl⟩

/-- The sample store holds alert 1, so the amended C2 applies to it. -/
theorem acknowledge_twice_events_witness :
    (∃ r ∈ sampleStore.alerts, numOne "1" = some r.id) ∧
    (serverAcknowledge numOne none sampleStore "1").events
      = [Event.alert_updated "1" true] :=
  ⟨⟨sampleAlert, by decide, by decide⟩,
    (acknowledge_twice_events numOne sampleStore "1" ⟨sampleAlert, by decide, by decide⟩).1⟩

/-- C3, as stated, fails. On the sample store the response to the second
acknowledge of alert 1 is the response to the first, in both handlers, and it
is the same whether the first acknowledger was principal 7 or principal 9. -/
theorem already_acknowledged_counterexample :
    (serverAcknowledge numOne none
        (serverAcknowledge numOne none sampleStore "1").store "1").response
      = (serverAcknowledge numOne none sampleStore "1").response ∧
    (routerAcknowledge numOne none "2025-04-17 16:00:00"
        (routerAcknowledge numOne none "2025-04-17 15:00:00" sampleStore "1" 7).store
        "1" 8).response
      = (routerAcknowledge numOne none "2025-04-17 15:00:00" sampleStore "1" 7).response ∧
    (routerAcknowledge numOne none "2025-04-17 16:00:00"
        (routerAcknowledge numOne none "2025-04-17 15:00:00" sampleStore "1" 7).store
        "1" 8).response
      = (routerAcknowledge numOne none "2025-04-17 16:00:00"
        (routerAcknowledge numOne none "2025-04-17 15:00:00" sampleStore "1" 9).store
        "1" 8).response := by
  decide

/-- C3, amended. For every existing alert that principal `p1` has acknowledged,
a further acknowledge by any principal `p2` is answered, in both handlers, with
status 200 and the message `Alert acknowledged successfully`: the response of
the first acknowledgment, which names no acknowledger. -/
theorem already_acknowledged_response (num : String → Option Int) (s : Store)
    (alertId : String) (p1 p2 : Int) (t1 t2 : String)
    (hex : ∃ r ∈ s.alerts, num alertId = some r.id) :
    (routerAcknowledge num none t2
        (routerAcknowledge num none t1 s alertId p1).store alertId p2).response
      = ⟨200, .message "Alert acknowledged successfully"⟩ ∧
    (routerAcknowledge num none t1 s alertId p1).response
      = ⟨200, .message "Alert acknowledged successfully"⟩ ∧
    (serverAcknowledge num none
        (routerAcknowledge num none t1 s alertId p1).store alertId).response
      = ⟨200, .message "Alert acknowledged successfully"⟩ ∧
    (serverAcknowledge num none (serverAcknowledge num none s alertId).store alertId).response
      = ⟨200, .message "Alert acknowledged successfully"⟩ ∧
    (serverAcknowledge num none s alertId).response
      = ⟨200, .message "Alert acknowledged successfully"⟩ := by
  have hr := mem_setAcknowledgedBy num t1 s p1 alertId hex
  have hs := mem_setAcknowledged num s alertId hex
  rw [routerAcknowledge_store, serverAcknowledge_store,
    routerAcknowledge_found num t2 _ alertId p2 hr, routerAcknowledge_found num t1 s alertId p1 hex,
    serverAcknowledge_found num _ alertId hr, serverAcknowledge_found num _ alertId hs,
    serverAcknowledge_found num s alertId hex]
  exact ⟨rfl, rfl, rfl, rfl, rfl⟩

/-- The sample store holds alert 1, so the amended C3 applies to it. -/
theorem already_acknowledged_response_witness :
    (∃ r ∈ sampleStore.alerts, numOne "1" = some r.id) ∧
    (routerAcknowledge numOne none "2025-04-17 16:00:00"
        (routerAcknowledge numOne none "2025-04-17 15:00:00" sampleStore "1" 7).store
        "1" 8).response
      = ⟨200, .message "Alert acknowledged successfully"⟩ :=
  ⟨⟨sampleAlert, by decide, by decide⟩,
    (already_acknowledged_response numOne sampleStore "1" 7 8 "2025-04-17 15:00:00"
      "2025-04-17 16:00:00" ⟨sampleAlert, by decide, by decide⟩).1⟩

/-- C4. For every store and every alert id that is the id of no row of the
alerts table, both acknowledge handlers respond 404 with the error
`Alert not found` and leave the store as it was, and the `server.js` handler
(like the other one) emits no event. -/
theorem acknowledge_unknown_alert (num : String → Option Int) (s : Store) (alertId : String)
    (now : String) (userId : Int)
    (hno : ∀ r ∈ s.alerts, num alertId ≠ some r.id) :
    (serverAcknowledge num none s alertId).response = ⟨404, .error "Alert not found"⟩ ∧
    (serverAcknowledge num none s alertId).store = s ∧
    (serverAcknowledge num none s alertId).events = [] ∧
    (routerAcknowledge num none now s alertId userId).response
      = ⟨404, .error "Alert not found"⟩ ∧
    (routerAcknowledge num none now s alertId userId).store = s ∧
    (routerAcknowledge num none now s alertId userId).events = [] := by
  have h0 := changes_eq_zero_of_not_mem num s alertId hno
  have hs := setAcknowledged_not_mem num s alertId hno
  have hr := setAcknowledgedBy_not_mem num now s userId alertId hno
  simp [serverAcknowledge, routerAcknowledge, h0, hs, hr]

/-- The id `2` names no alert of the sample store, so C4 applies to it. -/
theorem acknowledge_unknown_alert_witness :
    (∀ r ∈ sampleStore.alerts, numOne "2" ≠ some r.id) ∧
    (serverAcknowledge numOne none sampleStore "2").response
      = ⟨404, .error "Alert not found"⟩ :=
  ⟨by decide,
    (acknowledge_unknown_alert numOne sampleStore "2" "2025-04-17 15:00:00" 7
      (by decide)).1⟩

theorem routerAcknowledge_allOrNothing (num : String → Option Int) (err : Option String)
    (now : String) (s : Store) (alertId : String) (userId : Int)
    (h : s.allOrNothing = true) :
    (routerAcknowledge num err now s alertId userId).store.allOrNothing = true := by
  cases err with
  | some e => exact h
  | none =>
    rw [routerAcknowledge_store]
    simp only [Store.allOrNothing, setAcknowledgedBy, List.all_eq_true, List.mem_map] at h ⊢
    rintro r ⟨r0, hr0, rfl⟩
    split
    · rfl
    · exact h r0 hr0

/-- C5 fails on the code. The sample store has all-or-nothing acknowledgment
columns; after the `server.js` acknowledge handler has answered 200 for alert 1,
the alert has `acknowledged = 1` with neither acknowledger nor acknowledgment
time, so the store no longer has them. -/
theorem server_acknowledge_breaks_all_or_nothing :
    sampleStore.allOrNothing = true ∧
    (serverAcknowledge numOne none sampleStore "1").response.status = 200 ∧
    (serverAcknowledge numOne none sampleStore "1").store.alerts.map
        (fun r => (r.acknowledged, r.acknowledged_by, r.acknowledged_at))
      = [(some 1, none, none)] ∧
    (serverAcknowledge numOne none sampleStore "1").store.allOrNothing = false := by
  decide

/-- C6. For every store, every existing alert id `i` and every principal id `u`,
the `routes/alerts.js` acknowledge handler answers 200 and leaves alert `i`
with `acknowledged = 1`, `acknowledged_by = u` and `acknowledged_at` set to the
time of the statement; the other columns of every alert, every alert row with
another id, the number of rows and the devices are unchanged. -/
theorem router_acknowledge_frame (num : String → Option Int) (s : Store) (alertId : String)
    (i : Int) (now : String) (u : Int)
    (hid : num alertId = some i) (hex : ∃ r ∈ s.alerts, r.id = i) :
    (routerAcknowledge num none now s alertId u).response.status = 200 ∧
    (∃ r ∈ (routerAcknowledge num none now s alertId u).store.alerts, r.id = i) ∧
    (∀ r ∈ (routerAcknowledge num none now s alertId u).store.alerts, r.id = i →
      r.acknowledged = some 1 ∧ r.acknowledged_by = some u ∧ r.acknowledged_at = some now) ∧
    (routerAcknowledge num none now s alertId u).store.alerts.map AlertRow.eventFields
      = s.alerts.map AlertRow.eventFields ∧
    (∀ (k : Nat) (r : AlertRow), s.alerts[k]? = some r → r.id ≠ i →
      (routerAcknowledge num none now s alertId u).store.alerts[k]? = some r) ∧
    (routerAcknowledge num none now s alertId u).store.alerts.length = s.alerts.length ∧
    (routerAcknowledge num none now s alertId u).store.devices = s.devices := by
  have hex2 : ∃ r ∈ s.alerts, num alertId = some r.id := by
    obtain ⟨r, hr, hri⟩ := hex
    exact ⟨r, hr, by rw [hid, hri]⟩
  rw [routerAcknowledge_found num now s alertId u hex2]
  refine ⟨rfl, ?_, ?_, ?_, ?_, ?_, rfl⟩
  · obtain ⟨r, hr, hm⟩ := mem_setAcknowledgedBy num now s u alertId hex2
    refine ⟨r, hr, ?_⟩
    rw [hid] at hm
    exact (Option.some.inj hm).symm
  · intro r hr hri
    exact acknowledged_of_mem_setAcknowledgedBy num now s u alertId r hr (by rw [hid, hri])
  · exact eventFields_setAcknowledgedBy num now s u alertId
  · intro k r hk hne
    apply getElem?_setAcknowledgedBy_other num now s u alertId k r hk
    rw [hid]
    intro h
    exact hne (Option.some.inj h).symm
  · simp [setAcknowledgedBy]

/-- Alert 1 of the sample store is named by the text `1`, so C6 applies to it. -/
theorem router_acknowledge_frame_witness :
    numOne "1" = some 1 ∧ (∃ r ∈ sampleStore.alerts, r.id = 1) ∧
    (routerAcknowledge numOne none "2025-04-17 15:00:00" sampleStore "1" 7).response.status
      = 200 :=
  ⟨by decide, ⟨sampleAlert, by decide, by decide⟩,
    (router_acknowledge_frame numOne sampleStore "1" 1 "2025-04-17 15:00:00" 7 (by decide)
      ⟨sampleAlert, by decide, by decide⟩).1⟩

/-- C7, as stated, fails. In the sample store alert 1 is the only unacknowledged
alert of device `kb-001`, which is flagged as alerting. After either handler
has acknowledged alert 1 with status 200, the device has no unacknowledged
alert left and its `is_alerting` is still 1. -/
theorem acknowledge_is_alerting_counterexample :
    (sampleStore.unacknowledgedOf "kb-001").map AlertRow.id = [1] ∧
    (serverAcknowledge numOne none sampleStore "1").response.status = 200 ∧
    (serverAcknowledge numOne none sampleStore "1").store.unacknowledgedOf "kb-001" = [] ∧
    (serverAcknowledge numOne none sampleStore "1").store.devices.map
        (fun d => (d.id, d.is_alerting)) = [("kb-001", some 1)] ∧
    (routerAcknowledge numOne none "2025-04-17 15:00:00" sampleStore "1" 7).response.status
      = 200 ∧
    (routerAcknowledge numOne none "2025-04-17 15:00:00" sampleStore "1" 7).store.unacknowledgedOf
        "kb-001" = [] ∧
    (routerAcknowledge numOne none "2025-04-17 15:00:00" sampleStore "1" 7).store.devices.map
        (fun d => (d.id, d.is_alerting)) = [("kb-001", some 1)] := by
  decide

/-- C7, amended. For every store and every acknowledge request, whatever its
outcome, both handlers leave every device row as it was; so the `is_alerting`
of every device keeps its value, for a device with another unacknowledged alert
as for one whose last unacknowledged alert has just been acknowledged. -/
theorem acknowledge_leaves_devices (num : String → Option Int) (err : Option String)
    (now : String) (s : Store) (alertId : String) (userId : Int) :
    (serverAcknowledge num err s alertId).store.devices = s.devices ∧
    (routerAcknowledge num err now s alertId userId).store.devices = s.devices ∧
    (serverAcknowledge num err s alertId).store.devices.map DeviceRow.is_alerting
      = s.devices.map DeviceRow.is_alerting ∧
    (routerAcknowledge num err now s alertId userId).store.devices.map DeviceRow.is_alerting
      = s.devices.map DeviceRow.is_alerting := by
  have h1 : (serverAcknowledge num err s alertId).store.devices = s.devices := by
    unfold serverAcknowledge
    split
    · rfl
    · split_ifs <;> rfl
  have h2 : (routerAcknowledge num err now s alertId userId).store.devices = s.devices := by
    unfold routerAcknowledge
    split
    · rfl
    · split_ifs <;> rfl
  exact ⟨h1, h2, by rw [h1], by rw [h2]⟩

/-! ## The event consumer and the listing -/

theorem eachMessage_store (parse : String → Option Json) (s : Store) (message : KafkaMessage) :
    (eachMessage parse s message).store = s := by
  unfold eachMessage
  split
  · rfl
  · split <;> rfl

theorem mem_of_mem_sqlLimit (n : Int) (rows : List AlertRow) (r : AlertRow)
    (h : r ∈ sqlLimit n rows) : r ∈ rows := by
  unfold sqlLimit at h
  split_ifs at h
  · exact h
  · exact List.mem_of_mem_take h

theorem mem_of_mem_orderByTimestampDesc (rows : List AlertRow) (r : AlertRow)
    (h : r ∈ orderByTimestampDesc rows) : r ∈ rows :=
  (List.perm_insertionSort _ rows).mem_iff.mp h

theorem mem_of_mem_listAlerts (num : String → Option Int) (toISOString : Int → String)
    (err : Option String) (now : Int) (s : Store) (q : AlertsQuery) (r : AlertRow)
    (h : r ∈ (listAlerts num toISOString err now s q).rows) : r ∈ s.alerts := by
  unfold listAlerts at h
  split at h
  · simp [Response.rows] at h
  · simp [Response.rows] at h
  · simp only [Response.rows] at h
    exact List.mem_of_mem_filter
      (mem_of_mem_orderByTimestampDesc _ r (mem_of_mem_sqlLimit _ _ r h))

/-- C8, as stated, fails. On the sample store, after the consumer has handled a
well-formed event of device `mouse-003`, the listing with the empty query
returns the one alert the store held before: it contains no alert that was not
in the store, and none of device `mouse-003`. -/
theorem ingest_then_list_counterexample :
    (eachMessage parseSample sampleStore ⟨some sampleEventText⟩).result = .ok () ∧
    (listAlerts numOne (fun _ => "") none 1744900000000
        (eachMessage parseSample sampleStore ⟨some sampleEventText⟩).store emptyQuery).rows
      = [sampleAlert] ∧
    ((listAlerts numOne (fun _ => "") none 1744900000000
        (eachMessage parseSample sampleStore ⟨some sampleEventText⟩).store emptyQuery).rows.filter
      (fun r => decide (r ∉ sampleStore.alerts))).length ≠ 1 ∧
    ((listAlerts numOne (fun _ => "") none 1744900000000
        (eachMessage parseSample sampleStore ⟨some sampleEventText⟩).store emptyQuery).rows.filter
      (fun r => decide (r.device_id = "mouse-003"))).length = 0 := by
  refine ⟨?_, ?_, ?_, ?_⟩
  · simp [eachMessage, parseSample]
  · rw [eachMessage_store]
    decide
  · rw [eachMessage_store]
    decide
  · rw [eachMessage_store]
    decide

/-- C8, amended. For every store and every message whose value decodes to an
event `e`, the consumer completes, hands `e` to the subscribers as one
`new_alert` event and leaves the store as it was; so every listing afterwards
is the listing before, and every alert it returns was in the store before:
no alert is created. -/
theorem ingest_then_list (parse : String → Option Json) (num : String → Option Int)
    (toISOString : Int → String) (err : Option String) (now : Int) (s : Store)
    (q : AlertsQuery) (text : String) (e : Json) (hp : parse text = some e) :
    (eachMessage parse s ⟨some text⟩).result = .ok () ∧
    (eachMessage parse s ⟨some text⟩).events = [Event.new_alert e] ∧
    (eachMessage parse s ⟨some text⟩).store = s ∧
    listAlerts num toISOString err now (eachMessage parse s ⟨some text⟩).store q
      = listAlerts num toISOString err now s q ∧
    (∀ r ∈ (listAlerts num toISOString err now
        (eachMessage parse s ⟨some text⟩).store emptyQuery).rows, r ∈ s.alerts) := by
  refine ⟨?_, ?_, eachMessage_store parse s _, ?_, ?_⟩
  · simp [eachMessage, hp]
  · simp [eachMessage, hp]
  · rw [eachMessage_store]
  · intro r hr
    rw [eachMessage_store] at hr
    exact mem_of_mem_listAlerts num toISOString err now s emptyQuery r hr

/-- The sample event text decodes, so the amended C8 applies to it. -/
theorem ingest_then_list_witness :
    parseSample sampleEventText = some sampleEvent ∧
    (eachMessage parseSample sampleStore ⟨some sampleEventText⟩).events
      = [Event.new_alert sampleEvent] :=
  ⟨rfl,
    (ingest_then_list parseSample numOne (fun _ => "") none 1744900000000 sampleStore
      emptyQuery sampleEventText sampleEvent rfl).2.1⟩

/-- C9, as stated, fails. On the sample store, the message whose value decodes
to `{deviceId: null}` is not dropped: the consumer hands one `new_alert` event
carrying it to the subscribers. -/
theorem malformed_event_counterexample :
    (eachMessage parseSample sampleStore ⟨some malformedText⟩).events
      = [Event.new_alert malformedEvent] ∧
    (eachMessage parseSample sampleStore ⟨some malformedText⟩).events.countP
      Event.isNewAlert ≠ 0 := by
  refine ⟨rfl, ?_⟩
  decide

/-- C9, amended. For every store and every message whose value decodes to the
malformed event `{deviceId: null}`, the consumer creates no alert row (the store
is as it was) and hands exactly one `new_alert` event, carrying the malformed
event, to the subscribers. -/
theorem malformed_event_forwarded (parse : String → Option Json) (s : Store) (text : String)
    (hp : parse text = some malformedEvent) :
    (eachMessage parse s ⟨some text⟩).store = s ∧
    (eachMessage parse s ⟨some text⟩).store.alerts.length = s.alerts.length ∧
    (eachMessage parse s ⟨some text⟩).events = [Event.new_alert malformedEvent] ∧
    (eachMessage parse s ⟨some text⟩).events.countP Event.isNewAlert = 1 := by
  have hs := eachMessage_store parse s ⟨some text⟩
  have he : (eachMessage parse s ⟨some text⟩).events = [Event.new_alert malformedEvent] := by
    simp [eachMessage, hp]
  refine ⟨hs, by rw [hs], he, ?_⟩
  rw [he]
  rfl

/-- The malformed text decodes to the malformed event, so the amended C9
applies to it. -/
theorem malformed_event_forwarded_witness :
    parseSample malformedText = some malformedEvent ∧
    (eachMessage parseSample sampleStore ⟨some malformedText⟩).store = sampleStore :=
  ⟨rfl, (malformed_event_forwarded parseSample sampleStore malformedText rfl).1⟩

/-- C10, as stated, fails. On a message whose value is not JSON, `eachMessage`
does not complete normally: it raises the `SyntaxError` of `JSON.parse`. -/
theorem undecodable_message_counterexample :
    parseSample "not json" = none ∧
    (eachMessage parseSample sampleStore ⟨some "not json"⟩).result
      = .error JsError.SyntaxError ∧
    (eachMessage parseSample sampleStore ⟨some "not json"⟩).result ≠ .ok () := by
  refine ⟨rfl, rfl, ?_⟩
  intro h
  have h2 : (eachMessage parseSample sampleStore ⟨some "not json"⟩).result
      = .error JsError.SyntaxError := rfl
  rw [h2] at h
  cases h

/-- C10, amended. For every message whose value is not valid JSON,
`eachMessage` raises the `SyntaxError` of `JSON.parse` instead of completing;
it emits no event and leaves the store as it was. -/
theorem undecodable_message_raises (parse : String → Option Json) (s : Store) (text : String)
    (hp : parse text = none) :
    (eachMessage parse s ⟨some text⟩).result = .error JsError.SyntaxError ∧
    (eachMessage parse s ⟨some text⟩).events = [] ∧
    (eachMessage parse s ⟨some text⟩).store = s := by
  simp [eachMessage, hp]

/-- The text `not json` does not decode, so the amended C10 applies to it. -/
theorem undecodable_message_raises_witness :
    parseSample "not json" = none ∧
    (eachMessage parseSample sampleStore ⟨some "not json"⟩).events = [] :=
  ⟨rfl, (undecodable_message_raises parseSample sampleStore "not json" rfl).2.1⟩

/-! ## Lemmas on the listing, the limit and the grouped counts -/

theorem queryLimit_eq_asLimit (num : String → Option Int) (q : AlertsQuery) :
    queryLimit num q = (boundLimit q).asLimit num := by
  unfold queryLimit boundLimit
  split <;> rfl

theorem conditions_all (toISOString : Int → String) (now : Int) (q : AlertsQuery)
    (r : AlertRow) :
    ((conditions toISOString now q).all fun c => c r)
      = (severityOk q r && acknowledgedOk q r && timeRangeOk toISOString now q r) := by
  obtain ⟨sev, ack, tr, lim⟩ := q
  have hsev : ((if truthy sev && decide (sev ≠ some "all") then
        [fun r : AlertRow => decide (some r.severity = sev)] else []).all fun c => c r)
      = severityOk ⟨sev, ack, tr, lim⟩ r := by
    cases sev with
    | none => simp [truthy, severityOk]
    | some v =>
      by_cases h1 : v = ""
      · simp [truthy, severityOk, h1]
      · by_cases h2 : v = "all"
        · simp [truthy, severityOk, h2]
        · simp [truthy, severityOk, h1, h2, eq_comm]
  have hack : ((if truthy ack && decide (ack ≠ some "all") then
        [fun r : AlertRow => decide (r.acknowledged =
          some (if ack = some "true" then 1 else 0))] else []).all fun c => c r)
      = acknowledgedOk ⟨sev, ack, tr, lim⟩ r := by
    cases ack with
    | none => simp [truthy, acknowledgedOk]
    | some v =>
      by_cases h1 : v = ""
      · simp [truthy, acknowledgedOk, h1]
      · by_cases h2 : v = "all"
        · simp [truthy, acknowledgedOk, h2]
        · simp [truthy, acknowledgedOk, h1, h2]
  have htr : ((if truthy tr then
        [fun r : AlertRow =>
          decide (toISOString (now - windowMs (tr.getD "")) < r.timestamp)]
        else []).all fun c => c r)
      = timeRangeOk toISOString now ⟨sev, ack, tr, lim⟩ r := by
    cases tr with
    | none => simp [truthy, timeRangeOk]
    | some v =>
      by_cases h1 : v = ""
      · simp [truthy, timeRangeOk, h1]
      · simp [truthy, timeRangeOk, h1]
  unfold conditions
  rw [List.all_append, List.all_append, hsev, hack, htr]

theorem filter_conditions (toISOString : Int → String) (now : Int) (s : Store)
    (q : AlertsQuery) :
    (s.alerts.filter fun r => (conditions toISOString now q).all fun c => c r)
      = matchingAlerts toISOString now s q := by
  unfold matchingAlerts
  apply List.filter_congr
  intro r _
  exact conditions_all toISOString now q r

theorem listAlerts_rows (num : String → Option Int) (toISOString : Int → String) (now : Int)
    (s : Store) (q : AlertsQuery) (n : Int) (h : queryLimit num q = some n) :
    listAlerts num toISOString none now s q
      = ⟨200, .alerts (sqlLimit n (orderByTimestampDesc (matchingAlerts toISOString now s q)))⟩ := by
  unfold listAlerts
  rw [h, filter_conditions]

theorem listAlerts_mismatch (num : String → Option Int) (toISOString : Int → String)
    (now : Int) (s : Store) (q : AlertsQuery) (h : queryLimit num q = none) :
    listAlerts num toISOString none now s q = ⟨500, .error "Internal server error"⟩ := by
  unfold listAlerts
  rw [h]

theorem recentAlerts_rows (num : String → Option Int) (s : Store) (limit : Option String)
    (n : Int) (h : (recentLimit limit).asLimit num = some n) :
    recentAlerts num none s limit
      = ⟨200, .alerts (sqlLimit n (orderByTimestampDesc s.alerts))⟩ := by
  unfold recentAlerts
  rw [h]

theorem length_orderByTimestampDesc (rows : List AlertRow) :
    (orderByTimestampDesc rows).length = rows.length :=
  List.length_insertionSort _ rows

theorem length_sqlLimit_neg (n : Int) (rows : List AlertRow) (h : n < 0) :
    (sqlLimit n rows).length = rows.length := by
  unfold sqlLimit
  rw [if_pos h]

theorem length_sqlLimit_nonneg (n : Int) (rows : List AlertRow) (h : 0 ≤ n) :
    (sqlLimit n rows).length = min n.toNat rows.length := by
  unfold sqlLimit
  rw [if_neg (by omega), List.length_take]

theorem sqlLimit_of_length_le (n : Int) (rows : List AlertRow) (h : (rows.length : Int) ≤ n) :
    sqlLimit n rows = rows := by
  unfold sqlLimit
  rw [if_neg (by omega)]
  apply List.take_of_length_le
  omega

theorem countSum_groupCount (keys : List String) : countSum (groupCount keys) = keys.length := by
  unfold countSum groupCount
  rw [List.map_map]
  exact List.sum_map_count_dedup_eq_length keys

theorem foldl_count (groups : List (String × Nat)) (acc : Nat) :
    groups.foldl (fun sum item => sum + item.2) acc = acc + countSum groups := by
  induction groups generalizing acc with
  | nil => simp [countSum]
  | cons g gs ih =>
    rw [List.foldl_cons, ih]
    simp [countSum, Nat.add_assoc]

theorem statsWindowMs_eq (timeRange : String) : statsWindowMs timeRange = windowMs timeRange :=
  rfl

theorem statsRows_eq_matching (toISOString : Int → String) (now : Int) (s : Store)
    (t : String) (ht : t ≠ "") :
    statsRows toISOString now s (some t)
      = matchingAlerts toISOString now s ⟨none, none, some t, none⟩ := by
  unfold statsRows matchingAlerts
  apply List.filter_congr
  intro r _
  simp [statsTimeAgo, truthy, ht, statsWindowMs_eq, severityOk, acknowledgedOk, timeRangeOk]

theorem alertStats_ok (toISOString : Int → String) (now : Int) (s : Store)
    (timeRange : Option String) :
    alertStats toISOString none none now s timeRange
      = .ok
        { totalAlerts := (statsRows toISOString now s timeRange).length
          bySeverity :=
            groupCount ((statsRows toISOString now s timeRange).map AlertRow.severity)
          byDeviceType :=
            groupCount ((statsRows toISOString now s timeRange).map AlertRow.device_type) } := by
  unfold alertStats
  simp only [foldl_count, countSum_groupCount, List.length_map, Nat.zero_add]

theorem bigStore_timestamp (r : AlertRow) (h : r ∈ bigStore.alerts) :
    r.timestamp = "2025-04-17T14:32:15" := by
  simp only [bigStore, List.mem_map] at h
  obtain ⟨i, _, rfl⟩ := h
  rfl

theorem bigStore_length : bigStore.alerts.length = 51 := by
  unfold bigStore
  rw [List.length_map, List.length_range]

theorem matchingAlerts_bigStore_hour :
    matchingAlerts isoSample nowSample bigStore ⟨none, none, some "1h", none⟩
      = bigStore.alerts := by
  unfold matchingAlerts
  rw [List.filter_eq_self]
  intro r hr
  have hcut : isoSample (nowSample - windowMs "1h") = "2025-04-17T14:00:00.000Z" := by decide
  have hlt : "2025-04-17T14:00:00.000Z" < "2025-04-17T14:32:15" := by
    rw [String.lt_iff_toList_lt]
    decide
  simp [severityOk, acknowledgedOk, timeRangeOk, hcut, bigStore_timestamp r hr, hlt]

theorem matchingAlerts_emptyQuery (toISOString : Int → String) (now : Int) (s : Store)
    (limit : Option String) :
    matchingAlerts toISOString now s ⟨none, none, none, limit⟩ = s.alerts := by
  unfold matchingAlerts
  rw [List.filter_eq_self]
  intro r _
  rfl

/-! ## Statistics and the listing -/

/-- C11, as stated, fails. With 51 alerts in the last hour, the counts of
`bySeverity` for `1h` sum to 51, while the list handler called with only
`timeRange = 1h` returns 50 alerts: the default limit cuts the listing. -/
theorem stats_vs_list_counterexample :
    (alertStats isoSample none none nowSample bigStore (some "1h")).toOption.map
        (fun st => countSum st.bySeverity) = some 51 ∧
    (listAlerts numOne isoSample none nowSample bigStore
        ⟨none, none, some "1h", none⟩).rows.length = 50 := by
  constructor
  · rw [alertStats_ok]
    simp only [Except.toOption, Option.map_some', countSum_groupCount, List.length_map]
    rw [statsRows_eq_matching isoSample nowSample bigStore "1h" (by decide),
      matchingAlerts_bigStore_hour, bigStore_length]
  · rw [listAlerts_rows numOne isoSample nowSample bigStore ⟨none, none, some "1h", none⟩ 50 rfl]
    simp only [Response.rows]
    rw [length_sqlLimit_nonneg 50 _ (by decide), length_orderByTimestampDesc,
      matchingAlerts_bigStore_hour, bigStore_length]
    decide

/-- C11, amended. For every store, every instant `now` and every time range `t`
in 1h, 6h, 24h, 7d, the counts of the stats handler's `bySeverity` for `t` sum
to the number of alerts of the window, and the list handler called with only
`timeRange = t` returns that number of alerts or 50, whichever is smaller; so
the two agree exactly when at most 50 alerts are in the window. -/
theorem stats_vs_list (num : String → Option Int) (toISOString : Int → String) (now : Int)
    (s : Store) (t : String) (ht : t ∈ ["1h", "6h", "24h", "7d"]) :
    (alertStats toISOString none none now s (some t)).toOption.map
        (fun st => countSum st.bySeverity)
      = some (matchingAlerts toISOString now s ⟨none, none, some t, none⟩).length ∧
    (listAlerts num toISOString none now s ⟨none, none, some t, none⟩).rows.length
      = min 50 (matchingAlerts toISOString now s ⟨none, none, some t, none⟩).length ∧
    ((matchingAlerts toISOString now s ⟨none, none, some t, none⟩).length ≤ 50 ↔
      (alertStats toISOString none none now s (some t)).toOption.map
          (fun st => countSum st.bySeverity)
        = some (listAlerts num toISOString none now s
            ⟨none, none, some t, none⟩).rows.length) := by
  have hne : t ≠ "" := by
    intro h
    rw [h] at ht
    exact absurd ht (by decide)
  have h1 : (alertStats toISOString none none now s (some t)).toOption.map
        (fun st => countSum st.bySeverity)
      = some (matchingAlerts toISOString now s ⟨none, none, some t, none⟩).length := by
    rw [alertStats_ok]
    simp only [Except.toOption, Option.map_some', countSum_groupCount, List.length_map]
    rw [statsRows_eq_matching toISOString now s t hne]
  have h2 : (listAlerts num toISOString none now s ⟨none, none, some t, none⟩).rows.length
      = min 50 (matchingAlerts toISOString now s ⟨none, none, some t, none⟩).length := by
    rw [listAlerts_rows num toISOString now s ⟨none, none, some t, none⟩ 50 rfl]
    simp only [Response.rows]
    rw [length_sqlLimit_nonneg 50 _ (by decide), length_orderByTimestampDesc]
    rfl
  refine ⟨h1, h2, ?_⟩
  rw [h1, h2, Option.some_inj]
  omega

/-- The range `1h` is one of the four, so the amended C11 applies to the sample
store. -/
theorem stats_vs_list_witness :
    "1h" ∈ ["1h", "6h", "24h", "7d"] ∧
    (listAlerts numOne isoSample none nowSample sampleStore
        ⟨none, none, some "1h", none⟩).rows.length
      = min 50 (matchingAlerts isoSample nowSample sampleStore
          ⟨none, none, some "1h", none⟩).length :=
  ⟨by decide, (stats_vs_list numOne isoSample nowSample sampleStore "1h" (by decide)).2.1⟩

theorem statsTimeAgo_hour (now : Int) : statsTimeAgo now (some "1h") = now - 3600000 := by
  have h : statsWindowMs "1h" = 3600000 := by decide
  simp [statsTimeAgo, truthy, h]

theorem statsTimeAgo_six_hours (now : Int) :
    statsTimeAgo now (some "6h") = now - 21600000 := by
  have h : statsWindowMs "6h" = 21600000 := by decide
  simp [statsTimeAgo, truthy, h]

theorem statsTimeAgo_day (now : Int) : statsTimeAgo now (some "24h") = now - 86400000 := by
  have h : statsWindowMs "24h" = 86400000 := by decide
  simp [statsTimeAgo, truthy, h]

theorem statsTimeAgo_week (now : Int) : statsTimeAgo now (some "7d") = now - 604800000 := by
  have h : statsWindowMs "7d" = 604800000 := by decide
  simp [statsTimeAgo, truthy, h]

theorem statsTimeAgo_default (now : Int) (timeRange : Option String)
    (h : timeRange ∉ [some "1h", some "6h", some "24h", some "7d"]) :
    statsTimeAgo now timeRange = now - 86400000 := by
  have hday : statsWindowMs "24h" = 86400000 := by decide
  cases timeRange with
  | none => simp [statsTimeAgo, truthy, hday]
  | some t =>
    by_cases hempty : t = ""
    · simp [statsTimeAgo, truthy, hempty, hday]
    · simp only [List.mem_cons, List.mem_singleton, List.not_mem_nil, or_false, not_or,
        Option.some.injEq] at h
      obtain ⟨h1, h2, h3, h4⟩ := h
      simp [statsTimeAgo, truthy, hempty, statsWindowMs, h1, h2, h3, h4]

/-- C12. For every store and every stats request, the response is the body in
which `totalAlerts` is the sum of the `bySeverity` counts, is the sum of the
`byDeviceType` counts, and is the number of alert rows whose timestamp is
strictly after the cutoff of the requested window: `now` minus 3600000,
21600000, 86400000 and 604800000 ms for the time ranges 1h, 6h, 24h and 7d,
and `now` minus 86400000 ms for a time range that is absent, empty or none of
the four. -/
theorem stats_totals (toISOString : Int → String) (now : Int) (s : Store)
    (timeRange : Option String) :
    ∃ st, alertStats toISOString none none now s timeRange = .ok st ∧
      st.totalAlerts = countSum st.bySeverity ∧
      st.totalAlerts = countSum st.byDeviceType ∧
      (timeRange = some "1h" → st.totalAlerts = (s.alerts.filter fun r =>
        decide (toISOString (now - 3600000) < r.timestamp)).length) ∧
      (timeRange = some "6h" → st.totalAlerts = (s.alerts.filter fun r =>
        decide (toISOString (now - 21600000) < r.timestamp)).length) ∧
      (timeRange = some "24h" → st.totalAlerts = (s.alerts.filter fun r =>
        decide (toISOString (now - 86400000) < r.timestamp)).length) ∧
      (timeRange = some "7d" → st.totalAlerts = (s.alerts.filter fun r =>
        decide (toISOString (now - 604800000) < r.timestamp)).length) ∧
      (timeRange ∉ [some "1h", some "6h", some "24h", some "7d"] →
        st.totalAlerts = (s.alerts.filter fun r =>
          decide (toISOString (now - 86400000) < r.timestamp)).length) := by
  refine ⟨_, alertStats_ok toISOString now s timeRange, ?_, ?_, ?_, ?_, ?_, ?_, ?_⟩
  · simp only [countSum_groupCount, List.length_map]
  · simp only [countSum_groupCount, List.length_map]
  · intro h
    subst h
    simp only [statsRows, statsTimeAgo_hour]
  · intro h
    subst h
    simp only [statsRows, statsTimeAgo_six_hours]
  · intro h
    subst h
    simp only [statsRows, statsTimeAgo_day]
  · intro h
    subst h
    simp only [statsRows, statsTimeAgo_week]
  · intro h
    simp only [statsRows, statsTimeAgo_default now timeRange h]

/-- A stats request with no `timeRange` is none of the four, so C12 counts the
alerts of the last 24 hours: on the sample store, at 2025-04-17T15:00:00Z, the
one alert of 14:32:15. -/
theorem stats_totals_witness :
    (none : Option String) ∉ [some "1h", some "6h", some "24h", some "7d"] ∧
    isoSample (nowSample - 86400000) = "2025-04-16T15:00:00.000Z" ∧
    (sampleStore.alerts.filter fun r =>
      decide (isoSample (nowSample - 86400000) < r.timestamp)).length = 1 ∧
    (alertStats isoSample none none nowSample sampleStore none).toOption.map
        AlertStats.totalAlerts = some 1 := by
  have hcut : isoSample (nowSample - 86400000) = "2025-04-16T15:00:00.000Z" := by decide
  have hlt : "2025-04-16T15:00:00.000Z" < "2025-04-17T14:32:15" := by
    rw [String.lt_iff_toList_lt]
    decide
  have hcount : (sampleStore.alerts.filter fun r =>
      decide (isoSample (nowSample - 86400000) < r.timestamp)).length = 1 := by
    have hkeep : decide ("2025-04-16T15:00:00.000Z" < sampleAlert.timestamp) = true :=
      decide_eq_true hlt
    rw [hcut]
    simp only [sampleStore, List.filter_cons, hkeep, if_true, List.filter_nil,
      List.length_singleton]
  obtain ⟨st, hst, _, _, _, _, _, _, hdefault⟩ :=
    stats_totals isoSample nowSample sampleStore none
  refine ⟨by decide, hcut, hcount, ?_⟩
  rw [hst]
  simp only [Except.toOption, Option.map_some']
  rw [hdefault (by decide), hcount]

/-! ## The limit -/

theorem boundLimit_of_falsy (q : AlertsQuery) (h : q.limit = none ∨ q.limit = some "") :
    boundLimit q = .integer 50 := by
  unfold boundLimit
  rcases h with h | h <;> simp [h, truthy]

theorem recentLimit_of_falsy (limit : Option String) (h : limit = none ∨ limit = some "") :
    recentLimit limit = .integer 5 := by
  unfold recentLimit
  rcases h with h | h <;> simp [h, truthy]

theorem recentAlerts_mismatch (num : String → Option Int) (s : Store) (limit : Option String)
    (h : (recentLimit limit).asLimit num = none) :
    recentAlerts num none s limit = ⟨500, .error "Internal server error"⟩ := by
  unfold recentAlerts
  rw [h]

/-- C13, as stated, fails. For the request with `limit=abc` the value bound to
`LIMIT ?` is the text `abc`, not 50, and the statement fails: the response is
500. -/
theorem bound_limit_counterexample :
    boundLimit ⟨none, none, none, some "abc"⟩ = .text "abc" ∧
    boundLimit ⟨none, none, none, some "abc"⟩ ≠ .integer 50 ∧
    listAlerts numOne isoSample none nowSample sampleStore ⟨none, none, none, some "abc"⟩
      = ⟨500, .error "Internal server error"⟩ := by
  decide

/-- C13, amended. For every list-alerts request whose `limit` is absent or
empty, the limit bound into the query is 50. A `limit` that is not empty is
bound as its own text, numeric or not, and when that text stands for no integer
the statement fails and the response is 500. -/
theorem bound_limit_default (q : AlertsQuery) :
    ((q.limit = none ∨ q.limit = some "") → boundLimit q = .integer 50) ∧
    (∀ v : String, q.limit = some v → v ≠ "" → boundLimit q = .text v) ∧
    (∀ (num : String → Option Int) (toISOString : Int → String) (now : Int) (s : Store)
      (v : String), q.limit = some v → v ≠ "" → num v = none →
      listAlerts num toISOString none now s q = ⟨500, .error "Internal server error"⟩) := by
  refine ⟨boundLimit_of_falsy q, ?_, ?_⟩
  · intro v hv hne
    simp [boundLimit, hv, truthy, hne]
  · intro num toISOString now s v hv hne hnum
    apply listAlerts_mismatch
    simp [queryLimit, hv, truthy, hne, hnum]

/-- The empty query has no `limit`, so the amended C13 gives it the limit 50. -/
theorem bound_limit_default_witness :
    (emptyQuery.limit = none ∨ emptyQuery.limit = some "") ∧
    boundLimit emptyQuery = .integer 50 :=
  ⟨Or.inl rfl, (bound_limit_default emptyQuery).1 (Or.inl rfl)⟩

/-- C14, as stated, fails. For `limit=-1` the value bound to `LIMIT ?` is the
text `-1`, which stands for a negative integer, and on a table of 51 alerts
both the list handler and the recent-alerts handler return all 51. -/
theorem unbounded_limit_counterexample :
    boundLimit ⟨none, none, none, some "-1"⟩ = .text "-1" ∧
    (boundLimit ⟨none, none, none, some "-1"⟩).asLimit numSmall = some (-1) ∧
    (recentLimit (some "-1")).asLimit numSmall = some (-1) ∧
    (listAlerts numSmall isoSample none nowSample bigStore
        ⟨none, none, none, some "-1"⟩).rows.length = 51 ∧
    (recentAlerts numSmall none bigStore (some "-1")).rows.length = 51 := by
  refine ⟨by decide, by decide, by decide, ?_, ?_⟩
  · rw [listAlerts_rows numSmall isoSample nowSample bigStore
      ⟨none, none, none, some "-1"⟩ (-1) (by decide)]
    simp only [Response.rows]
    rw [length_sqlLimit_neg _ _ (by decide), length_orderByTimestampDesc,
      matchingAlerts_emptyQuery, bigStore_length]
  · rw [recentAlerts_rows numSmall bigStore (some "-1") (-1) (by decide)]
    simp only [Response.rows]
    rw [length_sqlLimit_neg _ _ (by decide), length_orderByTimestampDesc, bigStore_length]

/-- C14, amended. For every list-alerts and recent-alerts request, an absent or
empty `limit` bounds the result by 50 and by 5. Any other `limit` is bound as
its text: when the text stands for `n ≥ 0`, at most `n` alerts are returned;
when it stands for a negative integer, the result is not bounded, every
matching alert (for recent-alerts, every alert of the table) is returned; when
it stands for no integer, the statement fails and the response is 500. -/
theorem limit_bounds (num : String → Option Int) (toISOString : Int → String) (now : Int)
    (s : Store) (q : AlertsQuery) (limit : Option String) :
    ((q.limit = none ∨ q.limit = some "") →
      (listAlerts num toISOString none now s q).rows.length ≤ 50) ∧
    ((limit = none ∨ limit = some "") → (recentAlerts num none s limit).rows.length ≤ 5) ∧
    (∀ n : Int, queryLimit num q = some n → 0 ≤ n →
      (listAlerts num toISOString none now s q).rows.length ≤ n.toNat) ∧
    (∀ n : Int, (recentLimit limit).asLimit num = some n → 0 ≤ n →
      (recentAlerts num none s limit).rows.length ≤ n.toNat) ∧
    (∀ n : Int, queryLimit num q = some n → n < 0 →
      (listAlerts num toISOString none now s q).rows.length
        = (matchingAlerts toISOString now s q).length) ∧
    (∀ n : Int, (recentLimit limit).asLimit num = some n → n < 0 →
      (recentAlerts num none s limit).rows.length = s.alerts.length) ∧
    (queryLimit num q = none →
      listAlerts num toISOString none now s q = ⟨500, .error "Internal server error"⟩) ∧
    ((recentLimit limit).asLimit num = none →
      recentAlerts num none s limit = ⟨500, .error "Internal server error"⟩) := by
  have hlist : ∀ n : Int, queryLimit num q = some n → 0 ≤ n →
      (listAlerts num toISOString none now s q).rows.length ≤ n.toNat := by
    intro n hn h0
    rw [listAlerts_rows num toISOString now s q n hn]
    simp only [Response.rows]
    rw [length_sqlLimit_nonneg n _ h0]
    exact Nat.min_le_left _ _
  have hrecent : ∀ n : Int, (recentLimit limit).asLimit num = some n → 0 ≤ n →
      (recentAlerts num none s limit).rows.length ≤ n.toNat := by
    intro n hn h0
    rw [recentAlerts_rows num s limit n hn]
    simp only [Response.rows]
    rw [length_sqlLimit_nonneg n _ h0]
    exact Nat.min_le_left _ _
  refine ⟨?_, ?_, hlist, hrecent, ?_, ?_, listAlerts_mismatch num toISOString now s q,
    recentAlerts_mismatch num s limit⟩
  · intro h
    have hq : queryLimit num q = some 50 := by
      rw [queryLimit_eq_asLimit, boundLimit_of_falsy q h]
      rfl
    exact hlist 50 hq (by decide)
  · intro h
    have hq : (recentLimit limit).asLimit num = some 5 := by
      rw [recentLimit_of_falsy limit h]
      rfl
    exact hrecent 5 hq (by decide)
  · intro n hn hneg
    rw [listAlerts_rows num toISOString now s q n hn]
    simp only [Response.rows]
    rw [length_sqlLimit_neg n _ hneg, length_orderByTimestampDesc]
  · intro n hn hneg
    rw [recentAlerts_rows num s limit n hn]
    simp only [Response.rows]
    rw [length_sqlLimit_neg n _ hneg, length_orderByTimestampDesc]

/-- With `limit=2` on the store of three alerts, the amended C14 bounds the
listing by 2. -/
theorem limit_bounds_witness :
    queryLimit numSmall ⟨none, none, none, some "2"⟩ = some 2 ∧ (0 : Int) ≤ 2 ∧
    (listAlerts numSmall isoSample none nowSample severityStore
        ⟨none, none, none, some "2"⟩).rows.length ≤ (2 : Int).toNat :=
  ⟨by decide, by decide,
    (limit_bounds numSmall isoSample nowSample severityStore ⟨none, none, none, some "2"⟩
      none).2.2.1 2 (by decide) (by decide)⟩

/-! ## The time window -/

theorem timeRangeOk_eq_listTimeAgo (toISOString : Int → String) (now : Int) (q : AlertsQuery)
    (r : AlertRow) :
    timeRangeOk toISOString now q r
      = (match listTimeAgo now q.timeRange with
          | none => true
          | some cutoff => decide (toISOString cutoff < r.timestamp)) := by
  unfold timeRangeOk listTimeAgo
  cases h : q.timeRange with
  | none => simp [truthy]
  | some v =>
    by_cases hv : v = ""
    · simp [truthy, hv]
    · simp [truthy, hv]

theorem timeRangeOk_of_falsy (toISOString : Int → String) (now : Int) (q : AlertsQuery)
    (r : AlertRow) (h : q.timeRange = none ∨ q.timeRange = some "") :
    timeRangeOk toISOString now q r = true := by
  unfold timeRangeOk
  rcases h with h | h <;> simp [h]

theorem matchingAlerts_of_falsy (toISOString : Int → String) (now : Int) (s : Store)
    (q : AlertsQuery) (h : q.timeRange = none ∨ q.timeRange = some "") :
    matchingAlerts toISOString now s q
      = s.alerts.filter fun r => severityOk q r && acknowledgedOk q r := by
  unfold matchingAlerts
  apply List.filter_congr
  intro r _
  rw [timeRangeOk_of_falsy toISOString now q r h, Bool.and_true]

/-- C15. For every instant `now`, the cutoff of the list handler and of the
stats handler is `now` minus 3600000, 21600000, 86400000 and 604800000 ms for
the time ranges 1h, 6h, 24h and 7d, and `now` minus 86400000 ms for every
other non-empty time range; the two handlers have the same cutoff for the same
non-empty time range, and the list handler's time condition is the comparison
of the timestamp with that cutoff. -/
theorem cutoff_windows (now : Int) :
    listTimeAgo now (some "1h") = some (now - 3600000) ∧
    listTimeAgo now (some "6h") = some (now - 21600000) ∧
    listTimeAgo now (some "24h") = some (now - 86400000) ∧
    listTimeAgo now (some "7d") = some (now - 604800000) ∧
    (∀ t : String, t ≠ "" → t ∉ ["1h", "6h", "24h", "7d"] →
      listTimeAgo now (some t) = some (now - 86400000)) ∧
    statsTimeAgo now (some "1h") = now - 3600000 ∧
    statsTimeAgo now (some "6h") = now - 21600000 ∧
    statsTimeAgo now (some "24h") = now - 86400000 ∧
    statsTimeAgo now (some "7d") = now - 604800000 ∧
    (∀ t : String, t ≠ "" → t ∉ ["1h", "6h", "24h", "7d"] →
      statsTimeAgo now (some t) = now - 86400000) ∧
    (∀ t : String, t ≠ "" → listTimeAgo now (some t) = some (statsTimeAgo now (some t))) ∧
    (∀ (toISOString : Int → String) (q : AlertsQuery) (r : AlertRow),
      ((conditions toISOString now q).all fun c => c r)
        = (severityOk q r && acknowledgedOk q r &&
            match listTimeAgo now q.timeRange with
            | none => true
            | some cutoff => decide (toISOString cutoff < r.timestamp))) := by
  have hother : ∀ t : String, t ∉ ["1h", "6h", "24h", "7d"] → windowMs t = 86400000 := by
    intro t ht
    simp only [List.mem_cons, List.mem_singleton, List.not_mem_nil, or_false, not_or] at ht
    obtain ⟨h1, h2, h3, h4⟩ := ht
    simp [windowMs, h1, h2, h3, h4]
  have h1 : windowMs "1h" = 3600000 := by decide
  have h6 : windowMs "6h" = 21600000 := by decide
  have h24 : windowMs "24h" = 86400000 := by decide
  have h7 : windowMs "7d" = 604800000 := by decide
  refine ⟨by simp [listTimeAgo, truthy, h1], by simp [listTimeAgo, truthy, h6],
    by simp [listTimeAgo, truthy, h24], by simp [listTimeAgo, truthy, h7], ?_,
    by simp [statsTimeAgo, truthy, statsWindowMs_eq, h1],
    by simp [statsTimeAgo, truthy, statsWindowMs_eq, h6],
    by simp [statsTimeAgo, truthy, statsWindowMs_eq, h24],
    by simp [statsTimeAgo, truthy, statsWindowMs_eq, h7], ?_, ?_, ?_⟩
  · intro t hne ht
    simp [listTimeAgo, truthy, hne, hother t ht]
  · intro t hne ht
    simp [statsTimeAgo, truthy, hne, statsWindowMs_eq, hother t ht]
  · intro t hne
    simp [listTimeAgo, statsTimeAgo, truthy, hne, statsWindowMs_eq]
  · intro toISOString q r
    rw [conditions_all, timeRangeOk_eq_listTimeAgo]

/-- The time range `30d` is not empty and is none of the four, so C15 gives it
the window of 24 hours. -/
theorem cutoff_windows_witness :
    "30d" ≠ "" ∧ "30d" ∉ ["1h", "6h", "24h", "7d"] ∧
    listTimeAgo nowSample (some "30d") = some (nowSample - 86400000) :=
  ⟨by decide, by decide, (cutoff_windows nowSample).2.2.2.2.1 "30d" (by decide) (by decide)⟩

/-- C16, as stated, fails. On 2025-05-17 the list handler, called on the sample
store with no `timeRange`, returns the alert of 2025-04-17, whose timestamp is
not after the instant 24 hours before. -/
theorem default_window_counterexample :
    (listAlerts numOne isoSample none nowLater sampleStore emptyQuery).rows = [sampleAlert] ∧
    isoSample (nowLater - 24 * 60 * 60 * 1000) = "2025-05-16T15:00:00.000Z" ∧
    ¬ (isoSample (nowLater - 24 * 60 * 60 * 1000) < sampleAlert.timestamp) := by
  refine ⟨by decide, by decide, ?_⟩
  have h : isoSample (nowLater - 24 * 60 * 60 * 1000) = "2025-05-16T15:00:00.000Z" := by
    decide
  rw [h, String.lt_iff_toList_lt]
  decide

/-- C16, amended. For every store and every list-alerts request in which
`timeRange` is absent or empty, no time window is applied: the returned alerts
are selected by the severity and acknowledgment filters alone, the response
does not depend on `now`, and with a limit of at least the number of rows every
alert that passes these two filters is returned, whatever its timestamp. -/
theorem list_without_time_range (num : String → Option Int) (toISOString : Int → String)
    (now : Int) (s : Store) (q : AlertsQuery) (n : Int)
    (htr : q.timeRange = none ∨ q.timeRange = some "") (hn : queryLimit num q = some n) :
    (listAlerts num toISOString none now s q).rows
      = sqlLimit n (orderByTimestampDesc
          (s.alerts.filter fun r => severityOk q r && acknowledgedOk q r)) ∧
    (∀ (toISOString2 : Int → String) (now2 : Int),
      listAlerts num toISOString2 none now2 s q = listAlerts num toISOString none now s q) ∧
    ((s.alerts.length : Int) ≤ n → ∀ r ∈ s.alerts, severityOk q r = true →
      acknowledgedOk q r = true → r ∈ (listAlerts num toISOString none now s q).rows) := by
  have hrows : (listAlerts num toISOString none now s q).rows
      = sqlLimit n (orderByTimestampDesc
          (s.alerts.filter fun r => severityOk q r && acknowledgedOk q r)) := by
    rw [listAlerts_rows num toISOString now s q n hn, matchingAlerts_of_falsy _ _ _ _ htr]
    rfl
  refine ⟨hrows, ?_, ?_⟩
  · intro toISOString2 now2
    rw [listAlerts_rows num toISOString now s q n hn,
      listAlerts_rows num toISOString2 now2 s q n hn,
      matchingAlerts_of_falsy _ _ _ _ htr, matchingAlerts_of_falsy _ _ _ _ htr]
  · intro hlen r hr hsev hack
    rw [hrows, sqlLimit_of_length_le]
    · apply (List.perm_insertionSort _ _).mem_iff.mpr
      rw [List.mem_filter]
      exact ⟨hr, by simp [hsev, hack]⟩
    · rw [length_orderByTimestampDesc]
      have := List.length_filter_le (fun r => severityOk q r && acknowledgedOk q r) s.alerts
      omega

/-- The empty query has no `timeRange` and the limit 50, so the amended C16
applies to it on the sample store. -/
theorem list_without_time_range_witness :
    (emptyQuery.timeRange = none ∨ emptyQuery.timeRange = some "") ∧
    queryLimit numOne emptyQuery = some 50 ∧
    listAlerts numOne isoSample none nowSample sampleStore emptyQuery
      = listAlerts numOne isoSample none nowLater sampleStore emptyQuery :=
  ⟨Or.inl rfl, rfl,
    (list_without_time_range numOne isoSample nowLater sampleStore emptyQuery 50 (Or.inl rfl)
      rfl).2.1 isoSample nowSample⟩

/-! ## Selection and order of the listing -/

theorem orderByTimestampDesc_perm (rows : List AlertRow) :
    (orderByTimestampDesc rows).Perm rows :=
  List.perm_insertionSort _ rows

theorem orderByTimestampDesc_sorted (rows : List AlertRow) :
    (orderByTimestampDesc rows).Pairwise fun a b => b.timestamp ≤ a.timestamp := by
  haveI : IsTotal AlertRow (fun a b => ¬ a.timestamp < b.timestamp) :=
    ⟨fun a b => by
      rcases lt_or_ge a.timestamp b.timestamp with h | h
      · exact Or.inr (not_lt.mpr (le_of_lt h))
      · exact Or.inl (not_lt.mpr h)⟩
  haveI : IsTrans AlertRow (fun a b => ¬ a.timestamp < b.timestamp) :=
    ⟨fun a b c hab hbc => not_lt.mpr (le_trans (not_lt.mp hbc) (not_lt.mp hab))⟩
  have h := List.sorted_insertionSort (fun a b : AlertRow => ¬ a.timestamp < b.timestamp) rows
  exact List.Pairwise.imp (fun hab => not_lt.mp hab) h

theorem sqlLimit_sublist (n : Int) (rows : List AlertRow) : (sqlLimit n rows).Sublist rows := by
  unfold sqlLimit
  split_ifs
  · exact List.Sublist.refl rows
  · exact List.take_sublist _ rows

theorem sqlLimit_nonneg (n : Int) (rows : List AlertRow) (h : 0 ≤ n) :
    sqlLimit n rows = rows.take n.toNat := by
  unfold sqlLimit
  rw [if_neg (by omega)]

theorem listAlerts_sorted (num : String → Option Int) (toISOString : Int → String)
    (err : Option String) (now : Int) (s : Store) (q : AlertsQuery) :
    (listAlerts num toISOString err now s q).rows.Pairwise
      fun a b => b.timestamp ≤ a.timestamp := by
  unfold listAlerts
  split
  · exact List.Pairwise.nil
  · exact List.Pairwise.nil
  · exact (orderByTimestampDesc_sorted _).sublist (sqlLimit_sublist _ _)

theorem recentAlerts_sorted (num : String → Option Int) (err : Option String) (s : Store)
    (limit : Option String) :
    (recentAlerts num err s limit).rows.Pairwise fun a b => b.timestamp ≤ a.timestamp := by
  unfold recentAlerts
  split
  · exact List.Pairwise.nil
  · exact List.Pairwise.nil
  · exact (orderByTimestampDesc_sorted _).sublist (sqlLimit_sublist _ _)

/-- C17. For every store and every list-alerts request whose limit is at least
the number of alert rows, the returned alerts are exactly the rows of the table
that satisfy every filter of the request (severity equal to the one asked for,
acknowledged equal to the state asked for, timestamp strictly after the
cutoff), each as often as it is in the table, and no others. -/
theorem list_selects_exactly (num : String → Option Int) (toISOString : Int → String)
    (now : Int) (s : Store) (q : AlertsQuery) (n : Int)
    (hn : queryLimit num q = some n) (hlen : (s.alerts.length : Int) ≤ n) :
    (listAlerts num toISOString none now s q).rows.Perm (matchingAlerts toISOString now s q) ∧
    (∀ r : AlertRow, r ∈ (listAlerts num toISOString none now s q).rows ↔
      r ∈ s.alerts ∧ severityOk q r = true ∧ acknowledgedOk q r = true ∧
        timeRangeOk toISOString now q r = true) ∧
    (listAlerts num toISOString none now s q).rows.length
      = (matchingAlerts toISOString now s q).length := by
  have hrows : (listAlerts num toISOString none now s q).rows
      = orderByTimestampDesc (matchingAlerts toISOString now s q) := by
    rw [listAlerts_rows num toISOString now s q n hn]
    simp only [Response.rows]
    apply sqlLimit_of_length_le
    rw [length_orderByTimestampDesc]
    have : (matchingAlerts toISOString now s q).length ≤ s.alerts.length :=
      List.length_filter_le _ _
    omega
  have hperm := orderByTimestampDesc_perm (matchingAlerts toISOString now s q)
  rw [hrows]
  refine ⟨hperm, ?_, hperm.length_eq⟩
  intro r
  rw [hperm.mem_iff]
  simp [matchingAlerts, List.mem_filter, and_assoc]

/-- Over the alerts of severities low, high and critical, the request
`severity=high` has the limit 50, which is at least three, and C17 gives the
one high alert. -/
theorem list_selects_exactly_witness :
    queryLimit numOne ⟨some "high", none, none, none⟩ = some 50 ∧
    (severityStore.alerts.length : Int) ≤ 50 ∧
    (listAlerts numOne isoSample none nowSample severityStore
        ⟨some "high", none, none, none⟩).rows.Perm
      (matchingAlerts isoSample nowSample severityStore ⟨some "high", none, none, none⟩) ∧
    matchingAlerts isoSample nowSample severityStore ⟨some "high", none, none, none⟩
      = [{ sampleAlert with id := 2, severity := "high",
                            timestamp := "2025-04-17T14:28:45" }] :=
  ⟨by decide, by decide,
    (list_selects_exactly numOne isoSample nowSample severityStore
      ⟨some "high", none, none, none⟩ 50 (by decide) (by decide)).1,
    by decide⟩

/-- C18. For every store and every request, the alerts returned by list-alerts
and by recent-alerts are in descending order of timestamp (each timestamp is at
least that of every alert after it), and when the limit is `n ≥ 0` they are
the first `n` of the matching alerts (for recent-alerts, of all alerts) put in
that order. -/
theorem list_ordered (num : String → Option Int) (toISOString : Int → String)
    (err : Option String) (now : Int) (s : Store) (q : AlertsQuery) (limit : Option String) :
    ((listAlerts num toISOString err now s q).rows.Pairwise
      fun a b => b.timestamp ≤ a.timestamp) ∧
    ((recentAlerts num err s limit).rows.Pairwise fun a b => b.timestamp ≤ a.timestamp) ∧
    ((orderByTimestampDesc (matchingAlerts toISOString now s q)).Pairwise
      fun a b => b.timestamp ≤ a.timestamp) ∧
    (orderByTimestampDesc (matchingAlerts toISOString now s q)).Perm
      (matchingAlerts toISOString now s q) ∧
    (orderByTimestampDesc s.alerts).Perm s.alerts ∧
    (∀ n : Int, queryLimit num q = some n → 0 ≤ n →
      (listAlerts num toISOString none now s q).rows
        = (orderByTimestampDesc (matchingAlerts toISOString now s q)).take n.toNat) ∧
    (∀ n : Int, (recentLimit limit).asLimit num = some n → 0 ≤ n →
      (recentAlerts num none s limit).rows = (orderByTimestampDesc s.alerts).take n.toNat) := by
  refine ⟨listAlerts_sorted num toISOString err now s q, recentAlerts_sorted num err s limit,
    orderByTimestampDesc_sorted _, orderByTimestampDesc_perm _, orderByTimestampDesc_perm _,
    ?_, ?_⟩
  · intro n hn h0
    rw [listAlerts_rows num toISOString now s q n hn]
    exact sqlLimit_nonneg n _ h0
  · intro n hn h0
    rw [recentAlerts_rows num s limit n hn]
    exact sqlLimit_nonneg n _ h0

/-- With `limit=2` on the store of three alerts, C18 gives the two latest
alerts, the latest first. -/
theorem list_ordered_witness :
    (recentLimit (some "2")).asLimit numSmall = some 2 ∧ (0 : Int) ≤ 2 ∧
    (recentAlerts numSmall none severityStore (some "2")).rows
      = (orderByTimestampDesc severityStore.alerts).take (2 : Int).toNat :=
  ⟨by decide, by decide,
    (list_ordered numSmall isoSample none nowSample severityStore emptyQuery
      (some "2")).2.2.2.2.2.2 2 (by decide) (by decide)⟩

/-! ## The devices listing -/

theorem deviceConditions_all (q : DevicesQuery) (d : DeviceRow) :
    ((deviceConditions q).all fun c => c d) = deviceSelected q d := by
  obtain ⟨ty, st⟩ := q
  have hty : ((if truthy ty && decide (ty ≠ some "all") then
        [fun d : DeviceRow => decide (some d.device_type = ty)] else []).all fun c => c d)
      = (match ty with
          | none => true
          | some t => decide (t = "") || decide (t = "all") || decide (d.device_type = t)) := by
    cases ty with
    | none => simp [truthy]
    | some t =>
      by_cases h1 : t = ""
      · simp [truthy, h1]
      · by_cases h2 : t = "all"
        · simp [truthy, h2]
        · simp [truthy, h1, h2, eq_comm]
  have hst : ((if truthy st && decide (st ≠ some "all") then
        (if st = some "alerting" then [fun d : DeviceRow => decide (d.is_alerting = some 1)]
         else [fun d : DeviceRow => decide (d.status = st)])
        else []).all fun c => c d)
      = (match st with
          | none => true
          | some v =>
            if v = "" then true
            else if v = "all" then true
            else if v = "alerting" then decide (d.is_alerting = some 1)
            else decide (d.status = some v)) := by
    cases st with
    | none => simp [truthy]
    | some v =>
      by_cases h1 : v = ""
      · simp [truthy, h1]
      · by_cases h2 : v = "all"
        · simp [truthy, h2]
        · by_cases h3 : v = "alerting"
          · simp [truthy, h3]
          · simp [truthy, h1, h2, h3]
  unfold deviceConditions deviceSelected
  rw [List.all_append, hty, hst]

theorem deviceSelected_eq_asClaimed (q : DevicesQuery) (d : DeviceRow)
    (hty : q.type ≠ some "") (hst : q.status ≠ some "") :
    deviceSelected q d = deviceSelectedAsClaimed q d := by
  obtain ⟨ty, st⟩ := q
  unfold deviceSelected deviceSelectedAsClaimed
  congr 1
  · cases ty with
    | none => rfl
    | some t =>
      have h : t ≠ "" := fun h => hty (by rw [h])
      simp [h]
  · cases st with
    | none => rfl
    | some v =>
      have h : v ≠ "" := fun h => hst (by rw [h])
      simp [h]

/-- C19, as stated, fails. For the request `type=` (the empty string) on the
sample store, the handler returns the keyboard device, while no device has the
device type the claim asks for, the empty string. -/
theorem list_devices_counterexample :
    listDevices none sampleStore ⟨some "", none⟩ = .ok [sampleDevice] ∧
    sampleStore.devices.filter (deviceSelectedAsClaimed ⟨some "", none⟩) = [] := by
  constructor
  · rfl
  · decide

/-- C19, amended. For every store and every list-devices request, the returned
devices are exactly those that satisfy all supplied predicates, in table order,
where a type `t` means `device_type = t`, the status `alerting` means
`is_alerting = 1` whatever the status column, any other status `v` means
`status = v`, and a parameter that is absent, empty or `all` adds no predicate.
When no parameter is the empty string, this is the selection as C19 words it. -/
theorem list_devices_selects (s : Store) (q : DevicesQuery) :
    listDevices none s q = .ok (s.devices.filter (deviceSelected q)) ∧
    (q.type ≠ some "" → q.status ≠ some "" →
      listDevices none s q = .ok (s.devices.filter (deviceSelectedAsClaimed q))) := by
  have h : listDevices none s q = .ok (s.devices.filter (deviceSelected q)) := by
    have hf : (s.devices.filter fun d => (deviceConditions q).all fun c => c d)
        = s.devices.filter (deviceSelected q) := by
      apply List.filter_congr
      intro d _
      exact deviceConditions_all q d
    show Except.ok (s.devices.filter fun d => (deviceConditions q).all fun c => c d)
      = Except.ok (s.devices.filter (deviceSelected q))
    rw [hf]
  refine ⟨h, ?_⟩
  intro hty hst
  rw [h]
  congr 1
  apply List.filter_congr
  intro d _
  exact deviceSelected_eq_asClaimed q d hty hst

/-- The request `status=alerting` has no empty parameter, so the amended C19
gives the selection as claimed: the alerting device of the sample store. -/
theorem list_devices_selects_witness :
    (⟨none, some "alerting"⟩ : DevicesQuery).type ≠ some "" ∧
    (⟨none, some "alerting"⟩ : DevicesQuery).status ≠ some "" ∧
    listDevices none sampleStore ⟨none, some "alerting"⟩
      = .ok (sampleStore.devices.filter (deviceSelectedAsClaimed ⟨none, some "alerting"⟩)) ∧
    sampleStore.devices.filter (deviceSelectedAsClaimed ⟨none, some "alerting"⟩)
      = [sampleDevice] :=
  ⟨by decide, by decide,
    (list_devices_selects sampleStore ⟨none, some "alerting"⟩).2 (by decide) (by decide),
    by decide⟩

/-! ## The authentication gate -/

theorem authenticateToken_no_token (verify : String → Option Principal)
    (authHeader : Option String) (h : truthy (extractToken authHeader) = false) :
    authenticateToken verify authHeader
      = .respond ⟨401, .error "Authentication token required"⟩ := by
  unfold authenticateToken
  rw [h]
  rfl

theorem authenticateToken_rejected (verify : String → Option Principal)
    (authHeader : Option String) (h : truthy (extractToken authHeader) = true)
    (hv : verify ((extractToken authHeader).getD "") = none) :
    authenticateToken verify authHeader
      = .respond ⟨403, .error "Invalid or expired token"⟩ := by
  unfold authenticateToken
  rw [h, if_pos rfl, hv]

/-- C20 fails on the code. For a request that carries the token `expired`,
which `jwt.verify` rejects, `authenticateToken` answers 403, not 401; the
client's response interceptor clears the session on 401 and leaves it as it is
on 403. -/
theorem rejected_token_status :
    verifySample "expired" = none ∧
    extractToken (some "Bearer expired") = some "expired" ∧
    authenticateToken verifySample (some "Bearer expired")
      = .respond ⟨403, .error "Invalid or expired token"⟩ ∧
    responseInterceptor (some 403) sampleSession = sampleSession ∧
    responseInterceptor (some 401) sampleSession = ⟨none, none, "/login"⟩ := by
  decide

/-! ## The role gate -/

/-- C21. For every list of roles and every authenticated principal,
`authorize(roles)` calls the next handler, with the principal unchanged,
exactly when the principal's role is in the list, and otherwise answers 403
`Access denied` and does not call it. -/
theorem authorize_iff (roles : List String) (user : Principal) :
    (authorize roles user = .next user ↔ user.role ∈ roles) ∧
    (user.role ∈ roles → authorize roles user = .next user) ∧
    (user.role ∉ roles → authorize roles user = .respond ⟨403, .error "Access denied"⟩) := by
  unfold authorize
  by_cases h : user.role ∈ roles
  · simp [h]
  · simp [h]

/-- An analyst is not in the list `admin`, so C21 answers 403, and an admin is
let through. -/
theorem authorize_iff_witness :
    "analyst" ∉ ["admin"] ∧
    authorize ["admin"] ⟨2, "ana", "analyst"⟩ = .respond ⟨403, .error "Access denied"⟩ :=
  ⟨by decide, (authorize_iff ["admin"] ⟨2, "ana", "analyst"⟩).2.2 (by decide)⟩

/-! ## The device status update -/

theorem statusRejected_iff (status : Option Json) :
    statusRejected status = false ↔
      status = some (.str "active") ∨ status = some (.str "inactive") := by
  cases status with
  | none => simp [statusRejected]
  | some v =>
    cases v with
    | str t =>
      by_cases h1 : t = "active"
      · simp [statusRejected, Json.toBoolean, includesStatus, h1]
      · by_cases h2 : t = "inactive"
        · simp [statusRejected, Json.toBoolean, includesStatus, h2]
        · simp [statusRejected, Json.toBoolean, includesStatus, h1, h2]
    | null => simp [statusRejected, Json.toBoolean, includesStatus]
    | bool b => simp [statusRejected, Json.toBoolean, includesStatus]
    | num n => simp [statusRejected, Json.toBoolean, includesStatus]
    | arr l => simp [statusRejected, Json.toBoolean, includesStatus]
    | obj l => simp [statusRejected, Json.toBoolean, includesStatus]

theorem setDeviceStatus_not_mem (s : Store) (deviceId : String) (status : Option String)
    (h : ∀ d ∈ s.devices, d.id ≠ deviceId) : setDeviceStatus s deviceId status = s := by
  unfold setDeviceStatus
  have : (s.devices.map fun d =>
      if d.id = deviceId then { d with status := status } else d) = s.devices := by
    conv_rhs => rw [← List.map_id s.devices]
    apply List.map_congr_left
    intro d hd
    simp [h d hd]
  rw [this]

theorem deviceChanges_eq_zero (s : Store) (deviceId : String)
    (h : ∀ d ∈ s.devices, d.id ≠ deviceId) : deviceChanges s deviceId = 0 := by
  unfold deviceChanges
  rw [List.length_eq_zero, List.filter_eq_nil_iff]
  intro d hd
  simp [h d hd]

theorem deviceChanges_pos (s : Store) (deviceId : String)
    (h : ∃ d ∈ s.devices, d.id = deviceId) : 0 < deviceChanges s deviceId := by
  obtain ⟨d, hd, hid⟩ := h
  unfold deviceChanges
  apply List.length_pos_of_mem
  exact List.mem_filter.mpr ⟨hd, by simp [hid]⟩

theorem updateDeviceStatus_rejected (err : Option String) (s : Store) (deviceId : String)
    (status : Option Json) (h : statusRejected status = true) :
    updateDeviceStatus err s deviceId status
      = ⟨s, [], ⟨400, .error "Valid status (active/inactive) is required"⟩⟩ := by
  unfold updateDeviceStatus
  rw [if_pos h]

theorem updateDeviceStatus_found (s : Store) (deviceId : String) (status : Option Json)
    (h : statusRejected status = false) (hex : ∃ d ∈ s.devices, d.id = deviceId) :
    updateDeviceStatus none s deviceId status
      = ⟨setDeviceStatus s deviceId (statusText status), [],
          ⟨200, .message "Device status updated successfully"⟩⟩ := by
  have hpos := deviceChanges_pos s deviceId hex
  unfold updateDeviceStatus
  rw [if_neg (by simp [h])]
  simp only
  rw [if_neg (by omega)]

/-- C22. For every store, device id and request body, the update-device-status
handler answers 400 exactly when the body's status is missing or is not one of
the strings `active` and `inactive`, and then leaves the store unchanged; with
a valid status and a device id that matches no row it answers 404 and leaves
the store unchanged. -/
theorem update_status_rejects (err : Option String) (s : Store) (deviceId : String)
    (status : Option Json) :
    ((updateDeviceStatus err s deviceId status).response.status = 400 ↔
      ¬ (status = some (.str "active") ∨ status = some (.str "inactive"))) ∧
    (¬ (status = some (.str "active") ∨ status = some (.str "inactive")) →
      (updateDeviceStatus err s deviceId status).response
          = ⟨400, .error "Valid status (active/inactive) is required"⟩ ∧
        (updateDeviceStatus err s deviceId status).store = s) ∧
    ((status = some (.str "active") ∨ status = some (.str "inactive")) →
      (∀ d ∈ s.devices, d.id ≠ deviceId) →
      (updateDeviceStatus none s deviceId status).response
          = ⟨404, .error "Device not found"⟩ ∧
        (updateDeviceStatus none s deviceId status).store = s) := by
  have hrej := statusRejected_iff status
  refine ⟨?_, ?_, ?_⟩
  · constructor
    · intro h400 hvalid
      have hr : statusRejected status = false := hrej.mpr hvalid
      unfold updateDeviceStatus at h400
      rw [if_neg (by simp [hr])] at h400
      cases err with
      | some e => simp at h400
      | none =>
        simp only at h400
        split_ifs at h400 <;> simp at h400
    · intro hinvalid
      have hr : statusRejected status = true := by
        cases h : statusRejected status with
        | true => rfl
        | false => exact absurd (hrej.mp h) hinvalid
      rw [updateDeviceStatus_rejected err s deviceId status hr]
  · intro hinvalid
    have hr : statusRejected status = true := by
      cases h : statusRejected status with
      | true => rfl
      | false => exact absurd (hrej.mp h) hinvalid
    rw [updateDeviceStatus_rejected err s deviceId status hr]
    exact ⟨rfl, rfl⟩
  · intro hvalid hno
    have hr : statusRejected status = false := hrej.mpr hvalid
    unfold updateDeviceStatus
    rw [if_neg (by simp [hr])]
    simp only
    rw [if_pos (deviceChanges_eq_zero s deviceId hno), setDeviceStatus_not_mem s deviceId _ hno]
    exact ⟨rfl, rfl⟩

/-- The status `offline` is neither `active` nor `inactive`, so C22 answers 400
on the sample store. -/
theorem update_status_rejects_witness :
    ¬ (some (Json.str "offline") = some (.str "active") ∨
        some (Json.str "offline") = some (.str "inactive")) ∧
    (updateDeviceStatus none sampleStore "kb-001" (some (.str "offline"))).response
      = ⟨400, .error "Valid status (active/inactive) is required"⟩ :=
  ⟨by simp,
    ((update_status_rejects none sampleStore "kb-001" (some (.str "offline"))).2.1
      (by simp)).1⟩

/-- C23. For every store, every existing device id and every status `v` among
`active` and `inactive`, the update-device-status handler answers 200 and sets
the status of the device to `v`; every other column of every device, every
device row with another id, the number of device rows and the alerts are
unchanged. -/
theorem update_status_frame (s : Store) (deviceId : String) (v : String)
    (hv : v = "active" ∨ v = "inactive") (hex : ∃ d ∈ s.devices, d.id = deviceId) :
    (updateDeviceStatus none s deviceId (some (.str v))).response
      = ⟨200, .message "Device status updated successfully"⟩ ∧
    (∃ d ∈ (updateDeviceStatus none s deviceId (some (.str v))).store.devices,
      d.id = deviceId) ∧
    (∀ d ∈ (updateDeviceStatus none s deviceId (some (.str v))).store.devices,
      d.id = deviceId → d.status = some v) ∧
    (updateDeviceStatus none s deviceId (some (.str v))).store.devices.map
        DeviceRow.otherFields = s.devices.map DeviceRow.otherFields ∧
    (∀ (k : Nat) (d : DeviceRow), s.devices[k]? = some d → d.id ≠ deviceId →
      (updateDeviceStatus none s deviceId (some (.str v))).store.devices[k]? = some d) ∧
    (updateDeviceStatus none s deviceId (some (.str v))).store.devices.length
      = s.devices.length ∧
    (updateDeviceStatus none s deviceId (some (.str v))).store.alerts = s.alerts := by
  have hr : statusRejected (some (.str v)) = false :=
    (statusRejected_iff _).mpr (by rcases hv with h | h <;> simp [h])
  rw [updateDeviceStatus_found s deviceId _ hr hex]
  refine ⟨rfl, ?_, ?_, ?_, ?_, ?_, rfl⟩
  · obtain ⟨d, hd, hid⟩ := hex
    refine ⟨{ d with status := some v }, ?_, hid⟩
    simp only [setDeviceStatus, statusText, List.mem_map]
    exact ⟨d, hd, by simp [hid]⟩
  · intro d hd hid
    simp only [setDeviceStatus, statusText, List.mem_map] at hd
    obtain ⟨d0, _, rfl⟩ := hd
    by_cases h : d0.id = deviceId
    · simp [h]
    · simp [h] at hid
  · simp only [setDeviceStatus, List.map_map]
    apply List.map_congr_left
    intro d _
    simp only [Function.comp_apply]
    split <;> rfl
  · intro k d hk hne
    simp only [setDeviceStatus, List.getElem?_map, hk, Option.map_some']
    simp [hne]
  · simp [setDeviceStatus]

/-- The device `kb-001` is in the sample store and `inactive` is a valid
status, so C23 applies. -/
theorem update_status_frame_witness :
    ("inactive" = "active" ∨ "inactive" = "inactive") ∧
    (∃ d ∈ sampleStore.devices, d.id = "kb-001") ∧
    (updateDeviceStatus none sampleStore "kb-001" (some (.str "inactive"))).response
      = ⟨200, .message "Device status updated successfully"⟩ :=
  ⟨Or.inr rfl, ⟨sampleDevice, by decide, by decide⟩,
    (update_status_frame sampleStore "kb-001" "inactive" (Or.inr rfl)
      ⟨sampleDevice, by decide, by decide⟩).1⟩

/-! ## The devices router -/

theorem route_get_stats :
    route devicesRoutes "GET" ["stats"] = some (.byId, [("id", "stats")]) := by
  decide

theorem devicesRouter_get_stats (err : Nat → Option String) (s : Store) (query : DevicesQuery)
    (status : Option Json) :
    devicesRouter err s "GET" ["stats"] query status
      = some (s, getDevice (err 0) s "stats") := by
  unfold devicesRouter
  rw [route_get_stats]
  rfl

theorem countSum_groupCountNullable (keys : List (Option String)) :
    ((groupCountNullable keys).map Prod.snd).sum = keys.length := by
  unfold groupCountNullable
  rw [List.map_map]
  have h := List.sum_map_count_dedup_eq_length keys
  rw [← h]
  congr 1

theorem deviceStats_sums (s : Store) :
    deviceStats none none none s
      = .stats
          { total := s.devices.length
            byType := groupCount (s.devices.map DeviceRow.device_type)
            byStatus := groupCountNullable (s.devices.map DeviceRow.status) } ∧
    countSum (groupCount (s.devices.map DeviceRow.device_type)) = s.devices.length ∧
    ((groupCountNullable (s.devices.map DeviceRow.status)).map Prod.snd).sum
      = s.devices.length := by
  refine ⟨rfl, ?_, ?_⟩
  · rw [countSum_groupCount, List.length_map]
  · rw [countSum_groupCountNullable, List.length_map]

/-- C24 fails on the code. On the sample store, the request `GET /stats` to the
devices router is taken by the route `/:id`, registered before `/stats`, with
the id `stats`, and is answered 404 `Device not found`; the statistics handler,
which would answer with the total 1 and counts that sum to it, is not run. -/
theorem device_stats_unreachable :
    route devicesRoutes "GET" ["stats"] = some (.byId, [("id", "stats")]) ∧
    devicesRouter (fun _ => none) sampleStore "GET" ["stats"] ⟨none, none⟩ none
      = some (sampleStore, .response ⟨404, .error "Device not found"⟩) ∧
    deviceStats none none none sampleStore
      = .stats ⟨1, [("keyboard", 1)], [(some "active", 1)]⟩ := by
  decide

/-! ## Registration -/

theorem serverRegister_admin_only (verify : String → Option Principal) (hash : String → String)
    (err : Option String) (now : String) (rowid : Int) (db : UserDb)
    (authHeader : Option String) (body : RegisterBody)
    (h : (serverRegister verify hash err now rowid db authHeader body).db ≠ db) :
    ∃ user, authenticateToken verify authHeader = .next user ∧ user.role = "admin" := by
  unfold serverRegister at h
  cases hgate : authenticateToken verify authHeader with
  | respond r =>
    rw [hgate] at h
    exact absurd rfl h
  | next user =>
    rw [hgate] at h
    refine ⟨user, rfl, ?_⟩
    by_cases hrole : user.role ∈ ["admin"]
    · simpa using hrole
    · have hz : authorize ["admin"] user = .respond ⟨403, .error "Access denied"⟩ := by
        unfold authorize
        rw [if_pos hrole]
      simp only [hz] at h
      exact absurd rfl h

/-- C25 fails on the code. The register route of `routes/auth.js`, commented
`admin only`, runs no gate: a request with no principal (or with the role
`user`) and a body asking for an admin account gets 201 and creates the user
row. The same request to the route of `server.js` is answered 401 and creates
nothing. -/
theorem register_without_admin :
    (routerRegister hashSample none "2025-04-17 15:00:00" 2 sampleUsers none
        sampleRegistration).response = ⟨201, .message "User registered successfully"⟩ ∧
    (routerRegister hashSample none "2025-04-17 15:00:00" 2 sampleUsers none
        sampleRegistration).db.users.map (fun u => (u.username, u.role))
      = [("admin", "admin"), ("eve", "admin")] ∧
    routerRegister hashSample none "2025-04-17 15:00:00" 2 sampleUsers
        (some ⟨3, "bob", "user"⟩) sampleRegistration
      = routerRegister hashSample none "2025-04-17 15:00:00" 2 sampleUsers none
        sampleRegistration ∧
    serverRegister verifySample hashSample none "2025-04-17 15:00:00" 2 sampleUsers none
        sampleRegistration
      = ⟨sampleUsers, ⟨401, .error "Authentication token required"⟩⟩ := by
  decide

/-! ## The email pattern -/

theorem flatten_singletons (l : List EmailClass) : (l.map fun c => [c]).flatten = l := by
  induction l with
  | nil => rfl
  | cons d ds ih =>
    simp only [List.map_cons, List.flatten_cons, List.singleton_append]
    rw [ih]

theorem notSpaceAt_rmatch (x : List EmailClass) :
    notSpaceAt.rmatch x = true ↔ x = [.dot] ∨ x = [.other] := by
  have h := RegularExpression.add_rmatch_iff (RegularExpression.char EmailClass.dot)
    (RegularExpression.char EmailClass.other) x
  rw [RegularExpression.char_rmatch_iff, RegularExpression.char_rmatch_iff] at h
  exact h

theorem notSpaceAtPlus_rmatch (x : List EmailClass) :
    notSpaceAtPlus.rmatch x = true ↔ x ≠ [] ∧ ∀ c ∈ x, c = .dot ∨ c = .other := by
  have h := RegularExpression.mul_rmatch_iff notSpaceAt (RegularExpression.star notSpaceAt) x
  refine Iff.trans h ?_
  constructor
  · rintro ⟨t, u, rfl, ht, hu⟩
    rw [notSpaceAt_rmatch] at ht
    rw [RegularExpression.star_rmatch_iff] at hu
    obtain ⟨S, rfl, hS⟩ := hu
    have ht2 : t ≠ [] ∧ ∀ c ∈ t, c = EmailClass.dot ∨ c = EmailClass.other := by
      rcases ht with rfl | rfl <;> simp
    refine ⟨by simp [ht2.1], ?_⟩
    intro c hc
    rw [List.mem_append] at hc
    rcases hc with hc | hc
    · exact ht2.2 c hc
    · rw [List.mem_flatten] at hc
      obtain ⟨l, hl, hcl⟩ := hc
      have hl2 := (hS l hl).2
      rw [notSpaceAt_rmatch] at hl2
      rcases hl2 with rfl | rfl
      · left
        simpa using hcl
      · right
        simpa using hcl
  · rintro ⟨hne, hall⟩
    cases x with
    | nil => exact absurd rfl hne
    | cons c rest =>
      refine ⟨[c], rest, rfl, ?_, ?_⟩
      · rw [notSpaceAt_rmatch]
        rcases hall c (List.mem_cons_self c rest) with h | h <;> simp [h]
      · rw [RegularExpression.star_rmatch_iff]
        refine ⟨rest.map fun c => [c], ?_, ?_⟩
        · exact (flatten_singletons rest).symm
        · intro t ht
          rw [List.mem_map] at ht
          obtain ⟨d, hd, rfl⟩ := ht
          refine ⟨by simp, ?_⟩
          rw [notSpaceAt_rmatch]
          rcases hall d (List.mem_cons_of_mem _ hd) with h | h <;> simp [h]

theorem emailRegex_rmatch (x : List EmailClass) :
    emailRegex.rmatch x = true ↔
      ∃ a b c : List EmailClass, x = a ++ EmailClass.atSign :: (b ++ EmailClass.dot :: c) ∧
        (a ≠ [] ∧ ∀ e ∈ a, e = EmailClass.dot ∨ e = EmailClass.other) ∧
        (b ≠ [] ∧ ∀ e ∈ b, e = EmailClass.dot ∨ e = EmailClass.other) ∧
        (c ≠ [] ∧ ∀ e ∈ c, e = EmailClass.dot ∨ e = EmailClass.other) := by
  constructor
  · intro h
    obtain ⟨a, r1, rfl, ha, h1⟩ := (RegularExpression.mul_rmatch_iff notSpaceAtPlus
      (.comp (.char .atSign) (.comp notSpaceAtPlus (.comp (.char .dot) notSpaceAtPlus))) x).mp h
    obtain ⟨t, r2, rfl, ht, h2⟩ := (RegularExpression.mul_rmatch_iff (.char .atSign)
      (.comp notSpaceAtPlus (.comp (.char .dot) notSpaceAtPlus)) r1).mp h1
    obtain ⟨b, r3, rfl, hb, h3⟩ := (RegularExpression.mul_rmatch_iff notSpaceAtPlus
      (.comp (.char .dot) notSpaceAtPlus) r2).mp h2
    obtain ⟨d, c, rfl, hd, hc⟩ := (RegularExpression.mul_rmatch_iff (.char .dot)
      notSpaceAtPlus r3).mp h3
    rw [RegularExpression.char_rmatch_iff] at ht hd
    subst ht
    subst hd
    exact ⟨a, b, c, rfl, (notSpaceAtPlus_rmatch a).mp ha, (notSpaceAtPlus_rmatch b).mp hb,
      (notSpaceAtPlus_rmatch c).mp hc⟩
  · rintro ⟨a, b, c, rfl, ha, hb, hc⟩
    apply (RegularExpression.mul_rmatch_iff notSpaceAtPlus
      (.comp (.char .atSign) (.comp notSpaceAtPlus (.comp (.char .dot) notSpaceAtPlus))) _).mpr
    refine ⟨a, EmailClass.atSign :: (b ++ EmailClass.dot :: c), rfl,
      (notSpaceAtPlus_rmatch a).mpr ha, ?_⟩
    apply (RegularExpression.mul_rmatch_iff (.char .atSign)
      (.comp notSpaceAtPlus (.comp (.char .dot) notSpaceAtPlus)) _).mpr
    refine ⟨[EmailClass.atSign], b ++ EmailClass.dot :: c, rfl,
      (RegularExpression.char_rmatch_iff _ _).mpr rfl, ?_⟩
    apply (RegularExpression.mul_rmatch_iff notSpaceAtPlus
      (.comp (.char .dot) notSpaceAtPlus) _).mpr
    refine ⟨b, EmailClass.dot :: c, rfl, (notSpaceAtPlus_rmatch b).mpr hb, ?_⟩
    apply (RegularExpression.mul_rmatch_iff (.char .dot) notSpaceAtPlus _).mpr
    exact ⟨[EmailClass.dot], c, rfl, (RegularExpression.char_rmatch_iff _ _).mpr rfl,
      (notSpaceAtPlus_rmatch c).mpr hc⟩

theorem classify_atSign (c : Char) : classify c = .atSign ↔ c = '@' := by
  unfold classify
  constructor
  · intro h
    split_ifs at h with h1 h2 h3
    exact h2
  · rintro rfl
    rw [if_neg (by decide), if_pos rfl]

theorem classify_dot (c : Char) : classify c = .dot ↔ c = '.' := by
  unfold classify
  constructor
  · intro h
    split_ifs at h with h1 h2 h3
    exact h3
  · rintro rfl
    rw [if_neg (by decide), if_neg (by decide), if_pos rfl]

theorem classify_plain (c : Char) :
    (classify c = .dot ∨ classify c = .other) ↔ plainChar c := by
  unfold classify plainChar
  by_cases h1 : isJsWhitespace c = true
  · simp [h1]
  · rw [if_neg h1]
    have h1f : isJsWhitespace c = false := by simpa using h1
    by_cases h2 : c = '@'
    · rw [if_pos h2]
      simp [h2]
    · rw [if_neg h2]
      by_cases h3 : c = '.'
      · rw [if_pos h3]
        simp [h1f, h2]
      · rw [if_neg h3]
        simp [h1f, h2]

theorem plain_of_classes (l : List Char)
    (h : ∀ e ∈ l.map classify, e = EmailClass.dot ∨ e = EmailClass.other) :
    ∀ c ∈ l, plainChar c := by
  intro c hc
  exact (classify_plain c).mp (h (classify c) (List.mem_map_of_mem classify hc))

theorem classes_of_plain (l : List Char) (h : ∀ c ∈ l, plainChar c) :
    ∀ e ∈ l.map classify, e = EmailClass.dot ∨ e = EmailClass.other := by
  intro e he
  rw [List.mem_map] at he
  obtain ⟨c, hc, rfl⟩ := he
  exact (classify_plain c).mpr (h c hc)

theorem validateEmail_iff_split (s : String) :
    validateEmail s = true ↔
      ∃ a b c : List Char, s.toList = a ++ '@' :: (b ++ '.' :: c) ∧
        (a ≠ [] ∧ ∀ e ∈ a, plainChar e) ∧ (b ≠ [] ∧ ∀ e ∈ b, plainChar e) ∧
        (c ≠ [] ∧ ∀ e ∈ c, plainChar e) := by
  unfold validateEmail
  rw [emailRegex_rmatch]
  constructor
  · rintro ⟨A, B, C, hx, hA, hB, hC⟩
    obtain ⟨a, l2, hl, rfl, h2⟩ := List.map_eq_append_iff.mp hx
    obtain ⟨c1, l3, rfl, hc1, h3⟩ := List.map_eq_cons_iff.mp h2
    obtain ⟨b, l4, rfl, rfl, h4⟩ := List.map_eq_append_iff.mp h3
    obtain ⟨c2, c, rfl, hc2, rfl⟩ := List.map_eq_cons_iff.mp h4
    rw [classify_atSign] at hc1
    rw [classify_dot] at hc2
    subst hc1
    subst hc2
    refine ⟨a, b, c, hl, ⟨?_, plain_of_classes a hA.2⟩, ⟨?_, plain_of_classes b hB.2⟩,
      ⟨?_, plain_of_classes c hC.2⟩⟩
    · intro h
      exact hA.1 (by rw [h]; rfl)
    · intro h
      exact hB.1 (by rw [h]; rfl)
    · intro h
      exact hC.1 (by rw [h]; rfl)
  · rintro ⟨a, b, c, hs, ha, hb, hc⟩
    refine ⟨a.map classify, b.map classify, c.map classify, ?_,
      ⟨?_, classes_of_plain a ha.2⟩, ⟨?_, classes_of_plain b hb.2⟩,
      ⟨?_, classes_of_plain c hc.2⟩⟩
    · rw [hs]
      simp only [List.map_append, List.map_cons]
      rw [(classify_atSign '@').mpr rfl, (classify_dot '.').mpr rfl]
    · simpa using ha.1
    · simpa using hb.1
    · simpa using hc.1

theorem split_iff_asClaimed (l : List Char) :
    (∃ a b c : List Char, l = a ++ '@' :: (b ++ '.' :: c) ∧
        (a ≠ [] ∧ ∀ e ∈ a, plainChar e) ∧ (b ≠ [] ∧ ∀ e ∈ b, plainChar e) ∧
        (c ≠ [] ∧ ∀ e ∈ c, plainChar e)) ↔ emailAsClaimed l := by
  have hat : isJsWhitespace '@' = false := by decide
  have hdot : isJsWhitespace '.' = false := by decide
  have hcount : ∀ x : List Char, (∀ e ∈ x, plainChar e) → x.count '@' = 0 := by
    intro x hx
    rw [List.count_eq_zero]
    intro hmem
    exact (hx '@' hmem).2 rfl
  constructor
  · rintro ⟨a, b, c, rfl, ha, hb, hc⟩
    refine ⟨?_, ?_, a, b ++ '.' :: c, rfl, ha.1, b, c, rfl, hb.1, hc.1⟩
    · intro ch hch
      simp only [List.mem_append, List.mem_cons] at hch
      rcases hch with h | h | h | h | h
      · exact (ha.2 ch h).1
      · rw [h]
        exact hat
      · exact (hb.2 ch h).1
      · rw [h]
        exact hdot
      · exact (hc.2 ch h).1
    · simp only [List.count_append, List.count_cons, hcount a ha.2, hcount b hb.2,
        hcount c hc.2]
      decide
  · rintro ⟨hws, hone, before, after, rfl, hbefore, host, tail, rfl, hhost, htail⟩
    simp only [List.count_append, List.count_cons] at hone
    have hb0 : before.count '@' = 0 := by
      have : ('@' == '@') = true := by decide
      simp only [this, if_true] at hone
      omega
    have hh0 : host.count '@' = 0 := by
      have : ('@' == '@') = true := by decide
      simp only [this, if_true] at hone
      omega
    have ht0 : tail.count '@' = 0 := by
      have : ('@' == '@') = true := by decide
      simp only [this, if_true] at hone
      omega
    rw [List.count_eq_zero] at hb0 hh0 ht0
    refine ⟨before, host, tail, rfl, ⟨hbefore, ?_⟩, ⟨hhost, ?_⟩, ⟨htail, ?_⟩⟩
    · intro e he
      exact ⟨hws e (by simp [he]), fun h => hb0 (h ▸ he)⟩
    · intro e he
      exact ⟨hws e (by simp [he]), fun h => hh0 (h ▸ he)⟩
    · intro e he
      exact ⟨hws e (by simp [he]), fun h => ht0 (h ▸ he)⟩

/-! ## Input validation -/

/-- C28. For every string, `validateEmail` is true exactly when the string has
no whitespace, has exactly one `@`, has at least one character before the `@`,
and the part after the `@` has a `.` with at least one character before it and
at least one after it. -/
theorem validate_email_shape (s : String) :
    validateEmail s = true ↔ emailAsClaimed s.toList :=
  (validateEmail_iff_split s).trans (split_iff_asClaimed s.toList)

/-- The address `a@b.co` is accepted, and C28 gives its shape. -/
theorem validate_email_shape_witness :
    validateEmail "a@b.co" = true ∧ emailAsClaimed "a@b.co".toList :=
  ⟨by decide, (validate_email_shape "a@b.co").mp (by decide)⟩

theorem roleRejected_eq (role : Option Json) : roleRejected role = !roleAccepted role := by
  cases role with
  | none => rfl
  | some v =>
    cases v with
    | str r =>
      by_cases h : r = ""
      · subst h
        decide
      · simp [roleRejected, roleAccepted, jsTruthy, Json.toBoolean, includesRole, h]
    | null => rfl
    | bool b => simp [roleRejected, roleAccepted, jsTruthy, Json.toBoolean, includesRole]
    | num n => simp [roleRejected, roleAccepted, jsTruthy, Json.toBoolean, includesRole]
    | arr items => rfl
    | obj fields => rfl

theorem emailRejected_eq (toStr : Json → String) (email : Option Json) :
    emailRejected toStr email = !emailAccepted toStr email := by
  cases email with
  | none => rfl
  | some e =>
    simp only [emailRejected, emailAccepted, jsTruthy]
    cases e.toBoolean <;> cases validateEmail (emailText toStr e) <;> rfl

theorem lengthRejected_eq (ltEight : Json → Bool) (password : Option Json) :
    lengthRejected ltEight password = !passwordLongEnough ltEight password := by
  cases password with
  | none => rfl
  | some v =>
    cases v with
    | str p =>
      simp only [lengthRejected, passwordTooShort, passwordLongEnough]
      by_cases h : utf16Length p < 8
      · simp [h]
      · simp [h]
        omega
    | arr items =>
      simp only [lengthRejected, passwordTooShort, passwordLongEnough]
      by_cases h : items.length < 8
      · simp [h]
      · simp [h]
        omega
    | obj fields =>
      simp only [lengthRejected, passwordTooShort, passwordLongEnough]
      cases fields.lookup "length" with
      | none => rfl
      | some v => simp
    | null => rfl
    | bool b => rfl
    | num n => rfl

theorem validateRegistration_next_iff (toStr : Json → String) (ltEight : Json → Bool)
    (body : ValidationBody) :
    validateRegistration toStr ltEight body = .next ↔
      registrationAccepted toStr ltEight body = true := by
  unfold validateRegistration registrationAccepted
  rw [roleRejected_eq, emailRejected_eq, lengthRejected_eq]
  cases jsTruthy body.username <;> cases jsTruthy body.password <;>
    cases roleAccepted body.role <;> cases emailAccepted toStr body.email <;>
    cases passwordLongEnough ltEight body.password <;> simp

theorem accepted_eq_asClaimed (toStr : Json → String) (ltEight : Json → Bool)
    (u p r e : Option String) (he : e ≠ some "") :
    registrationAccepted toStr ltEight
        ⟨u.map Json.str, p.map Json.str, r.map Json.str, e.map Json.str⟩
      = registrationAcceptedAsClaimed toStr
        ⟨u.map Json.str, p.map Json.str, r.map Json.str, e.map Json.str⟩ := by
  unfold registrationAccepted registrationAcceptedAsClaimed
  cases p with
  | none => simp [jsTruthy]
  | some p =>
    have hrole : roleAccepted (r.map Json.str)
        = (match r.map Json.str with
            | some (.str r) => decide (r ∈ ["admin", "user", "analyst"])
            | _ => false) := rfl
    have hemail : emailAccepted toStr (e.map Json.str)
        = (match e.map Json.str with
            | none => true
            | some e => validateEmail (emailText toStr e)) := by
      cases e with
      | none => rfl
      | some e =>
        have hne : e ≠ "" := fun h => he (by rw [h])
        simp [emailAccepted, Json.toBoolean, hne]
    have hpw : passwordLongEnough ltEight (Option.map Json.str (some p))
        = (match Option.map Json.str (some p) with
            | some (.str p) => decide (8 ≤ utf16Length p)
            | _ => false) := rfl
    rw [hrole, hemail, hpw]

/-- C27, as stated, fails. A body with a valid username, password and role is
let through with the empty string as email, although `validateEmail` does not
accept the empty string, and with the number 1234567 as password, which has no
8 characters: `password.length` is `undefined` and `undefined < 8` is false. -/
theorem validate_registration_counterexample :
    validateRegistration toStrSample ltEightSample
        ⟨some (.str "bob"), some (.str "longenough"), some (.str "user"), some (.str "")⟩
      = .next ∧
    validateEmail "" = false ∧
    registrationAcceptedAsClaimed toStrSample
        ⟨some (.str "bob"), some (.str "longenough"), some (.str "user"), some (.str "")⟩
      = false ∧
    validateRegistration toStrSample ltEightSample
        ⟨some (.str "bob"), some (.num 1234567), some (.str "user"), none⟩
      = .next ∧
    registrationAcceptedAsClaimed toStrSample
        ⟨some (.str "bob"), some (.num 1234567), some (.str "user"), none⟩
      = false := by
  decide

/-- C27, amended. For every request body, whatever the JSON types of its
members, `validateRegistration` calls the next handler exactly when username
and password are truthy, role is one of the strings `admin`, `user`,
`analyst`, email is absent, falsy or has a string form accepted by
`validateEmail`, and `password.length` is not below 8 (a string of at least 8
characters; a number or a boolean, which has no length, always passes);
otherwise it answers 400 with the message of the first failing check, in the
order username or password, role, email, password length. For a body whose
members are strings and whose email is not the empty string this is the
acceptance as C27 words it. -/
theorem validate_registration (toStr : Json → String) (ltEight : Json → Bool)
    (body : ValidationBody) :
    (validateRegistration toStr ltEight body = .next ↔
      registrationAccepted toStr ltEight body = true) ∧
    ((jsTruthy body.username && jsTruthy body.password) = false →
      validateRegistration toStr ltEight body
        = .respond ⟨400, .error "Username and password are required"⟩) ∧
    ((jsTruthy body.username && jsTruthy body.password) = true →
      roleAccepted body.role = false →
      validateRegistration toStr ltEight body
        = .respond ⟨400, .error "Valid role is required"⟩) ∧
    ((jsTruthy body.username && jsTruthy body.password) = true →
      roleAccepted body.role = true → emailAccepted toStr body.email = false →
      validateRegistration toStr ltEight body
        = .respond ⟨400, .error "Invalid email format"⟩) ∧
    ((jsTruthy body.username && jsTruthy body.password) = true →
      roleAccepted body.role = true → emailAccepted toStr body.email = true →
      passwordLongEnough ltEight body.password = false →
      validateRegistration toStr ltEight body
        = .respond ⟨400, .error "Password must be at least 8 characters"⟩) ∧
    (∀ n : Int, passwordLongEnough ltEight (some (.num n)) = true) ∧
    (∀ b : Bool, passwordLongEnough ltEight (some (.bool b)) = true) ∧
    (∀ t : String, passwordLongEnough ltEight (some (.str t)) = decide (8 ≤ utf16Length t)) ∧
    (∀ t : String, emailAccepted toStr (some (.str t))
      = (decide (t = "") || validateEmail t)) ∧
    (∀ u p r e : Option String, e ≠ some "" →
      (validateRegistration toStr ltEight
          ⟨u.map Json.str, p.map Json.str, r.map Json.str, e.map Json.str⟩ = .next ↔
        registrationAcceptedAsClaimed toStr
          ⟨u.map Json.str, p.map Json.str, r.map Json.str, e.map Json.str⟩ = true)) := by
  refine ⟨validateRegistration_next_iff toStr ltEight body, ?_, ?_, ?_, ?_,
    fun _ => rfl, fun _ => rfl, fun _ => rfl, ?_, ?_⟩
  · intro h
    unfold validateRegistration
    cases hu : jsTruthy body.username <;> cases hp : jsTruthy body.password <;>
      simp [hu, hp] at h ⊢
  · intro h hr
    unfold validateRegistration
    rw [roleRejected_eq, hr]
    cases hu : jsTruthy body.username <;> cases hp : jsTruthy body.password <;>
      simp [hu, hp] at h ⊢
  · intro h hr he
    unfold validateRegistration
    rw [roleRejected_eq, emailRejected_eq, hr, he]
    cases hu : jsTruthy body.username <;> cases hp : jsTruthy body.password <;>
      simp [hu, hp] at h ⊢
  · intro h hr he hl
    unfold validateRegistration
    rw [roleRejected_eq, emailRejected_eq, lengthRejected_eq, hr, he, hl]
    cases hu : jsTruthy body.username <;> cases hp : jsTruthy body.password <;>
      simp [hu, hp] at h ⊢
  · intro t
    by_cases h : t = ""
    · subst h
      simp [emailAccepted, Json.toBoolean]
    · simp [emailAccepted, emailText, Json.toBoolean, h]
  · intro u p r e he
    rw [validateRegistration_next_iff, accepted_eq_asClaimed toStr ltEight u p r e he]

/-- A body with the role `guest` fails the role check, so the amended C27
answers 400 `Valid role is required`. -/
theorem validate_registration_witness :
    (jsTruthy (some (.str "bob")) && jsTruthy (some (.str "longenough"))) = true ∧
    roleAccepted (some (.str "guest")) = false ∧
    validateRegistration toStrSample ltEightSample
        ⟨some (.str "bob"), some (.str "longenough"), some (.str "guest"), none⟩
      = .respond ⟨400, .error "Valid role is required"⟩ :=
  ⟨by decide, by decide,
    (validate_registration toStrSample ltEightSample
      ⟨some (.str "bob"), some (.str "longenough"), some (.str "guest"), none⟩).2.2.1
      (by decide) (by decide)⟩

/-! ## The text of the list statements -/

theorem filter_flag_eq (a b : Option String) (h1 : truthy a = truthy b)
    (h2 : a = some "all" ↔ b = some "all") :
    (truthy a && decide (a ≠ some "all")) = (truthy b && decide (b ≠ some "all")) := by
  by_cases ha : a = some "all"
  · have hb := h2.mp ha
    simp [ha, hb]
  · have hb : ¬ b = some "all" := fun h => ha (h2.mpr h)
    simp [ha, hb, h1]

theorem alertsSql_congr (q1 q2 : AlertsQuery) (h : sameAlertFilters q1 q2) :
    alertsSql q1 = alertsSql q2 := by
  obtain ⟨h1, h2, h3, h4, h5⟩ := h
  unfold alertsSql alertsConditionsSql
  rw [filter_flag_eq _ _ h1 h2, filter_flag_eq _ _ h3 h4, h5]

theorem devicesSql_congr (q1 q2 : DevicesQuery) (h : sameDeviceFilters q1 q2) :
    devicesSql q1 = devicesSql q2 := by
  obtain ⟨h1, h2, h3, h4, h5⟩ := h
  unfold devicesSql devicesConditionsSql
  rw [filter_flag_eq _ _ h1 h2, filter_flag_eq _ _ h3 h4]
  by_cases ha : q1.status = some "alerting"
  · rw [if_pos ha, if_pos (h5.mp ha)]
  · rw [if_neg ha, if_neg (fun hb => ha (h5.mpr hb))]

theorem placeholders_alertsSql (toISOString : Int → String) (now : Int) (q : AlertsQuery) :
    placeholders (alertsSql q) = (alertsParams toISOString now q).length := by
  unfold alertsSql alertsConditionsSql alertsParams
  cases (truthy q.severity && decide (q.severity ≠ some "all")) <;>
    cases (truthy q.acknowledged && decide (q.acknowledged ≠ some "all")) <;>
    cases truthy q.timeRange <;>
    simp only [Bool.false_eq_true, if_false, if_true, List.append_nil, List.nil_append,
      List.cons_append, List.length_cons, List.length_nil] <;>
    decide

theorem placeholders_devicesSql (q : DevicesQuery) :
    placeholders (devicesSql q) = (devicesParams q).length := by
  unfold devicesSql devicesConditionsSql devicesParams
  by_cases ha : q.status = some "alerting"
  · simp only [if_pos ha]
    cases (truthy q.type && decide (q.type ≠ some "all")) <;>
      cases (truthy q.status && decide (q.status ≠ some "all")) <;>
      simp only [Bool.false_eq_true, if_false, if_true, List.append_nil, List.nil_append,
        List.cons_append, List.length_cons, List.length_nil] <;>
      decide
  · simp only [if_neg ha]
    cases (truthy q.type && decide (q.type ≠ some "all")) <;>
      cases (truthy q.status && decide (q.status ≠ some "all")) <;>
      simp only [Bool.false_eq_true, if_false, if_true, List.append_nil, List.nil_append,
        List.cons_append, List.length_cons, List.length_nil] <;>
      decide

/-- C29, as stated, fails. The requests `severity=` and `severity=high` have the
same parameters present and none equal to `all`, and their statements differ:
the first has no `WHERE`, the second has `WHERE severity = ?`. -/
theorem sql_text_counterexample :
    sameAlertFiltersAsClaimed ⟨some "", none, none, none⟩ ⟨some "high", none, none, none⟩ ∧
    alertsSql ⟨some "", none, none, none⟩
      = "SELECT * FROM alerts ORDER BY timestamp DESC LIMIT ?" ∧
    alertsSql ⟨some "high", none, none, none⟩
      = "SELECT * FROM alerts WHERE severity = ? ORDER BY timestamp DESC LIMIT ?" ∧
    alertsSql ⟨some "", none, none, none⟩ ≠ alertsSql ⟨some "high", none, none, none⟩ := by
  refine ⟨?_, by decide, by decide, by decide⟩
  unfold sameAlertFiltersAsClaimed
  simp

/-- C29, amended. The alert and device list statements are parameterised: for
every two requests in which the same parameters are present and not empty and
the same ones are `all` (for devices, `all` or `alerting`), the text of the
statement is the same whatever the values are, and in every statement the
number of `?` is the number of bound parameters. -/
theorem sql_text_parameterised :
    (∀ q1 q2 : AlertsQuery, sameAlertFilters q1 q2 → alertsSql q1 = alertsSql q2) ∧
    (∀ q1 q2 : DevicesQuery, sameDeviceFilters q1 q2 → devicesSql q1 = devicesSql q2) ∧
    (∀ (toISOString : Int → String) (now : Int) (q : AlertsQuery),
      placeholders (alertsSql q) = (alertsParams toISOString now q).length) ∧
    (∀ q : DevicesQuery, placeholders (devicesSql q) = (devicesParams q).length) :=
  ⟨alertsSql_congr, devicesSql_congr, placeholders_alertsSql, placeholders_devicesSql⟩

/-- The requests `severity=low` and `severity=high` supply the same filters, so
the amended C29 gives them the same statement. -/
theorem sql_text_parameterised_witness :
    sameAlertFilters ⟨some "low", none, none, none⟩ ⟨some "high", none, none, none⟩ ∧
    alertsSql ⟨some "low", none, none, none⟩ = alertsSql ⟨some "high", none, none, none⟩ :=
  ⟨by unfold sameAlertFilters; simp [truthy],
    sql_text_parameterised.1 _ _ (by unfold sameAlertFilters; simp [truthy])⟩

/-! ## The token between the client and the gate -/

theorem splitSpaces_of_no_space (t : List Char) (h : ' ' ∉ t) : splitSpaces t = [t] := by
  induction t with
  | nil => rfl
  | cons c cs ih =>
    have hc : c ≠ ' ' := fun hc => h (hc ▸ List.mem_cons_self _ _)
    have hcs : ' ' ∉ cs := fun hm => h (List.mem_cons_of_mem _ hm)
    rw [splitSpaces, if_neg hc, ih hcs]

theorem splitSpaces_append (a b : List Char) (h : ' ' ∉ a) :
    splitSpaces (a ++ ' ' :: b) = a :: splitSpaces b := by
  induction a with
  | nil =>
    rw [List.nil_append, splitSpaces, if_pos rfl]
  | cons c cs ih =>
    have hc : c ≠ ' ' := fun hc => h (hc ▸ List.mem_cons_self _ _)
    have hcs : ' ' ∉ cs := fun hm => h (List.mem_cons_of_mem _ hm)
    rw [List.cons_append, splitSpaces, if_neg hc, ih hcs]

theorem extractToken_second_field (scheme t : String) (hs : ' ' ∉ scheme.toList)
    (ht : ' ' ∉ t.toList) : extractToken (some (scheme ++ " " ++ t)) = some t := by
  have hne : scheme ++ " " ++ t ≠ "" := by
    intro h
    have := congrArg String.toList h
    simp at this
  have hsplit : splitSpaces (scheme ++ " " ++ t).toList = [scheme.toList, t.toList] := by
    have : (scheme ++ " " ++ t).toList = scheme.toList ++ ' ' :: t.toList := by
      simp [String.toList]
    rw [this, splitSpaces_append _ _ hs, splitSpaces_of_no_space _ ht]
  unfold extractToken
  simp only [if_neg hne, hsplit]
  rfl

theorem extractToken_second_of_more (scheme t rest : String) (hs : ' ' ∉ scheme.toList)
    (ht : ' ' ∉ t.toList) :
    extractToken (some (scheme ++ " " ++ t ++ " " ++ rest)) = some t := by
  have hne : scheme ++ " " ++ t ++ " " ++ rest ≠ "" := by
    intro h
    have := congrArg String.toList h
    simp at this
  have hsplit : splitSpaces (scheme ++ " " ++ t ++ " " ++ rest).toList
      = scheme.toList :: t.toList :: splitSpaces rest.toList := by
    have : (scheme ++ " " ++ t ++ " " ++ rest).toList
        = scheme.toList ++ ' ' :: (t.toList ++ ' ' :: rest.toList) := by
      simp [String.toList]
    rw [this, splitSpaces_append _ _ hs, splitSpaces_append _ _ ht]
  unfold extractToken
  simp only [if_neg hne, hsplit, List.getElem?_cons_succ, List.getElem?_cons_zero,
    Option.map_some']
  rfl

/-- C30. For every token that is not empty and has no space, the token
`authenticateToken` extracts from the header the client's request interceptor
builds, `Bearer ` followed by the token, is the token, and it is the token
`jwt.verify` is called on; and the extraction takes the second field between
spaces of the header, whatever the first field is and whatever follows the
second. -/
theorem token_round_trip (verify : String → Option Principal) (t : String) (hne : t ≠ "")
    (hsp : ' ' ∉ t.toList) :
    requestInterceptor (some t) = some ("Bearer " ++ t) ∧
    extractToken (requestInterceptor (some t)) = some t ∧
    authenticateToken verify (requestInterceptor (some t))
      = (match verify t with
          | none => .respond ⟨403, .error "Invalid or expired token"⟩
          | some user => .next user) ∧
    (∀ scheme : String, ' ' ∉ scheme.toList →
      extractToken (some (scheme ++ " " ++ t)) = some t) ∧
    (∀ scheme rest : String, ' ' ∉ scheme.toList →
      extractToken (some (scheme ++ " " ++ t ++ " " ++ rest)) = some t) := by
  have hreq : requestInterceptor (some t) = some ("Bearer " ++ t) := by
    simp [requestInterceptor, truthy, hne]
  have hbearer : extractToken (some ("Bearer " ++ t)) = some t :=
    extractToken_second_field "Bearer" t (by decide) hsp
  refine ⟨hreq, ?_, ?_, ?_, ?_⟩
  · rw [hreq, hbearer]
  · rw [hreq]
    unfold authenticateToken
    rw [hbearer]
    simp [truthy, hne]
  · intro scheme hs
    exact extractToken_second_field scheme t hs hsp
  · intro scheme rest hs
    exact extractToken_second_of_more scheme t rest hs hsp

/-- The token `good` is not empty and has no space, so C30 applies to it. -/
theorem token_round_trip_witness :
    "good" ≠ "" ∧ ' ' ∉ "good".toList ∧
    extractToken (requestInterceptor (some "good")) = some "good" :=
  ⟨by decide, by decide, (token_round_trip verifySample "good" (by decide) (by decide)).2.1⟩

end SecureIot
